import Mathlib

/-!
Verification development for the ARC (Argonaut RISC Core) instruction
decoder (`module/arc/ana.cpp`): a shallow embedding of the legacy 32-bit
decoder (`ana_old`), the ARCompact variable-length decoder
(`ana_compact`), the post-decode normalizer passes (`simplify`,
`fix_ldst`, `inline_const`) and the top-level entry point (`ana`),
together with theorems about byte consumption, long-immediate caching,
alignment handling, pseudo-instruction folding and branch-target
arithmetic.

Modelling conventions:
* the IDA byte stream is a function from 16-bit-word offsets to word
  values; `ua_next_word` masks to 16 bits and advances the cursor,
  maintaining `cmd.size` exactly as the IDA kernel does (+2 per word);
* the global `cmd` (insn state), the stream cursor and the
  `got_limm`/`g_limm` long-immediate cache become fields of an explicit
  `DState` record threaded through the decode functions;
* machine integers are modelled as `Nat`/`Int`; the one place the source
  relies on 32-bit wraparound (`immediate <<= 1`) is modelled with an
  explicit `% 2^32`.
-/

/-! ### Constants from headers that are not part of this file

`arc.hpp` / `ins.hpp` / IDA's `ua.hpp` are not in the analysed source.
The register codes 61/62/63 are documented in `ana.cpp` itself; the
remaining numeric values below are modelled constants: only their
distinctness and the bit layouts actually exercised by `ana.cpp`
(condition code in bits 4..0, delay bit 5, load flags Di/aa/ZZ/X in
bits 5..0, flag-update bit 8) matter to the development. -/

/-- operand types (IDA `o_void` …, from `ua.hpp`, not in src) -/
def o_void : Nat := 0
def o_reg : Nat := 1
def o_mem : Nat := 2
def o_phrase : Nat := 3
def o_displ : Nat := 4
def o_imm : Nat := 5
def o_near : Nat := 7

/-- operand data widths (IDA `dt_byte` … from `ua.hpp`, not in src) -/
def dt_byte : Nat := 0
def dt_word : Nat := 1
def dt_dword : Nat := 2
def dt_code : Nat := 9

/-- register code 61: short immediate with the .f flag set (`arc.hpp`;
documented in the `ana.cpp` header comment) -/
def SHIMM_F : Nat := 61
/-- register code 62: long immediate following the instruction -/
def LIMM : Nat := 62
/-- register code 63: short immediate without the .f flag -/
def SHIMM : Nat := 63

/-- Modelled from the spec: `is_imm` (in `arc.hpp`, not in src) tests the
three reserved immediate register codes 61/62/63. -/
def is_imm (code : Int) : Bool := code ≥ 61

/-- registers referenced by name in `ana.cpp` (values from the module's
register list in `reg.cpp`, not in src; ARCompact hardware numbers) -/
def R0 : Nat := 0
def GP : Nat := 26
def SP : Nat := 28
def BLINK : Nat := 31
def PCL : Nat := 63

/-! auxpref bits (`arc.hpp`, not in src).  The layout is forced by
`ana.cpp` itself: condition code in bits 4..0 (`code & aux_cmask`),
delay bit at bit 5 (`code & aux_d` under `N_5`), the load/store flag
group Di/aa/ZZ/X in bits 5..0 (`AAZZXD_23_15` composition), the
flag-update bit at bit 8 (legacy `code & 0x1FF` with F at bit 8). -/
def aux_cmask : Nat := 0x1F
def aux_zmask : Nat := 0x06
def aux_b : Nat := 0x02
def aux_w : Nat := 0x04
def aux_l : Nat := 0x00
def aux_amask : Nat := 0x18
def aux_as : Nat := 0x18
def aux_a : Nat := 0x18
def aux_x : Nat := 0x01
def aux_d : Nat := 0x20
def aux_nmask : Nat := 0x20
def aux_f : Nat := 0x100
def aux_pcload : Nat := 0x4000

/-- condition codes (`arc.hpp`, not in src; ARC hardware values) -/
def cEQ : Nat := 1
def cNE : Nat := 2
def cLO : Nat := 5
def cHS : Nat := 6
def cGT : Nat := 9
def cGE : Nat := 10
def cLT : Nat := 11
def cLE : Nat := 12
def cHI : Nat := 13
def cLS : Nat := 14

/-! instruction itypes (`ins.hpp`, not in src).  Modelled as distinct
nonzero naturals; 0 is `ARC_null`, "no instruction", exactly as the
zero-mnemonic terminal entries of the opcode tables require. -/
def ARC_null : Nat := 0
def ARC_ld : Nat := 1
def ARC_lr : Nat := 2
def ARC_st : Nat := 3
def ARC_sr : Nat := 4
def ARC_flag : Nat := 5
def ARC_asr : Nat := 6
def ARC_lsr : Nat := 7
def ARC_ror : Nat := 8
def ARC_rrc : Nat := 9
def ARC_sexb : Nat := 10
def ARC_sexw : Nat := 11
def ARC_extb : Nat := 12
def ARC_extw : Nat := 13
def ARC_swap : Nat := 14
def ARC_norm : Nat := 15
def ARC_brk : Nat := 16
def ARC_sleep : Nat := 17
def ARC_swi : Nat := 18
def ARC_j : Nat := 19
def ARC_jl : Nat := 20
def ARC_add : Nat := 21
def ARC_adc : Nat := 22
def ARC_sub : Nat := 23
def ARC_sbc : Nat := 24
def ARC_and : Nat := 25
def ARC_or : Nat := 26
def ARC_bic : Nat := 27
def ARC_xor : Nat := 28
def ARC_asl : Nat := 29
def ARC_mul64 : Nat := 30
def ARC_mulu64 : Nat := 31
def ARC_max : Nat := 32
def ARC_min : Nat := 33
def ARC_mov : Nat := 34
def ARC_lsl : Nat := 35
def ARC_rlc : Nat := 36
def ARC_nop : Nat := 37
def ARC_b : Nat := 38
def ARC_bl : Nat := 39
def ARC_lp : Nat := 40
def ARC_tst : Nat := 41
def ARC_cmp : Nat := 42
def ARC_rcmp : Nat := 43
def ARC_rsub : Nat := 44
def ARC_bset : Nat := 45
def ARC_bclr : Nat := 46
def ARC_btst : Nat := 47
def ARC_bxor : Nat := 48
def ARC_bmsk : Nat := 49
def ARC_add1 : Nat := 50
def ARC_add2 : Nat := 51
def ARC_add3 : Nat := 52
def ARC_sub1 : Nat := 53
def ARC_sub2 : Nat := 54
def ARC_sub3 : Nat := 55
def ARC_mpy : Nat := 56
def ARC_mpyh : Nat := 57
def ARC_mpyhu : Nat := 58
def ARC_mpyu : Nat := 59
def ARC_br : Nat := 60
def ARC_bbit0 : Nat := 61
def ARC_bbit1 : Nat := 62
def ARC_abs : Nat := 63
def ARC_not : Nat := 64
def ARC_ex : Nat := 65
def ARC_sync : Nat := 66
def ARC_rtie : Nat := 67
def ARC_trap : Nat := 68
def ARC_unimp : Nat := 69
def ARC_neg : Nat := 70
def ARC_pop : Nat := 71
def ARC_push : Nat := 72
def ARC_sat16 : Nat := 73
def ARC_rnd16 : Nat := 74
def ARC_abssw : Nat := 75
def ARC_abss : Nat := 76
def ARC_negsw : Nat := 77
def ARC_negs : Nat := 78
def ARC_normw : Nat := 79
def ARC_adds : Nat := 80
def ARC_subs : Nat := 81
def ARC_divaw : Nat := 82
def ARC_asls : Nat := 83
def ARC_asrs : Nat := 84
def ARC_muldw : Nat := 85
def ARC_muludw : Nat := 86
def ARC_mulrdw : Nat := 87
def ARC_macdw : Nat := 88
def ARC_macudw : Nat := 89
def ARC_macrdw : Nat := 90
def ARC_msubdw : Nat := 91
def ARC_addsdw : Nat := 92
def ARC_subsdw : Nat := 93
def ARC_mululw : Nat := 94
def ARC_mullw : Nat := 95
def ARC_mulflw : Nat := 96
def ARC_maclw : Nat := 97
def ARC_macflw : Nat := 98
def ARC_machulw : Nat := 99
def ARC_machlw : Nat := 100
def ARC_machflw : Nat := 101
def ARC_mulhlw : Nat := 102
def ARC_mulhflw : Nat := 103

/-! ### Data model -/

/-- IDA `op_t`: one decoded operand (the fields `ana.cpp` touches).
`value`/`addr` are modelled as mathematical integers (`uval_t`/`ea_t`
widths are build-dependent in IDA). -/
structure OpT where
  n : Nat := 0
  type : Nat := 0
  reg : Nat := 0
  secreg : Nat := 0
  value : Int := 0
  addr : Int := 0
  dtyp : Nat := 0
  membase : Nat := 0
  offb : Nat := 0
deriving DecidableEq

/-- IDA `insn_t` (the global `cmd`): the decoded-instruction record.
`ea` doubles as `cmd.ip` (both are the instruction start address). -/
structure Insn where
  ea : Nat := 0
  itype : Nat := 0
  auxpref : Nat := 0
  size : Nat := 0
  Op1 : OpT := {}
  Op2 : OpT := {}
  Op3 : OpT := {}
deriving DecidableEq

/-- a freshly kernel-initialised `cmd` at address `ea`: all fields
zeroed except the operand slot numbers -/
def initCmd (ea : Nat) : Insn :=
  { ea := ea, Op1 := { n := 0 }, Op2 := { n := 1 }, Op3 := { n := 2 } }

/-- per-call decode state: the `cmd` being built, the stream cursor
(`pos`, counted in 16-bit words past the instruction start), the byte
stream, and the long-immediate cache (`got_limm` flag plus the cached
word `g_limm`, the C `static int`). -/
structure DState where
  cmd : Insn
  pos : Nat := 0
  stream : Nat → Nat
  got_limm : Bool := false
  g_limm : Nat := 0

/-- process-wide configuration and external collaborators: the A4
legacy-vs-compact mode switch, the two `idpflags` normalizer switches,
the host readability query `isEnabled` (IDA kernel), and the
canonical-feature query.  `cf_chg1 i` is modelled from the spec: it
answers whether opcode `i`'s canonical behavior writes its first
operand (`cmd.get_canon_feature() & CF_CHG1`, whose per-opcode table
lives in `ins.cpp`, which is not in src). -/
structure Env where
  is_a4 : Bool := false
  arc_simplify : Bool := false
  arc_inlineconst : Bool := false
  cf_chg1 : Nat → Bool := fun _ => false
  isEnabled : Int → Bool := fun _ => false

/-! ### Bitfield extractors -/

/-- `BITS(val, high, low)`: the unsigned inclusive bit range -/
def BITS (val high low : Nat) : Nat :=
  (val >>> low) &&& ((1 <<< (high - low + 1)) - 1)

/-- `SIGNEXT(x, b)` (Bit Twiddling Hacks): sign-extend the low `b` bits -/
def SIGNEXT (x : Nat) (b : Nat) : Int :=
  ((x &&& ((1 <<< b) - 1)) ^^^ (1 <<< (b - 1)) : Nat) - ((1 <<< (b - 1) : Nat) : Int)

/-- `SBITS(val, high, low)`: bitfield extraction with sign extension -/
def SBITS (val high low : Nat) : Int :=
  SIGNEXT (BITS val high low) (high - low + 1)

/-- C `x & ~m` on our unbounded `Nat` model: remove the bits of `m`
from `x` (`x ^^^ (x &&& m)` keeps exactly the bits of `x` outside `m`) -/
def clearBits (v m : Nat) : Nat := v ^^^ (v &&& m)

/-- C `uint16` truncation -/
def uint16 (x : Nat) : Nat := x % 65536

/-! ### Stream access (`ua_next_word` / `ua_next_long`) -/

/-- read the next 16-bit word and advance; `cmd.size` grows by 2 -/
def uaNextWord (s : DState) : Nat × DState :=
  (s.stream s.pos % 65536,
   { s with pos := s.pos + 1, cmd := { s.cmd with size := s.cmd.size + 2 } })

/-- read the next 32-bit longword (little-endian halfword order) -/
def uaNextLong (s : DState) : Nat × DState :=
  let (w0, s) := uaNextWord s
  let (w1, s) := uaNextWord s
  (w0 ||| (w1 <<< 16), s)

/-- `get_limm`: fetch the 32-bit long immediate at most once per
instruction; the cached value is returned on every later call -/
def getLimm (s : DState) : Nat × DState :=
  if s.got_limm then (s.g_limm, s)
  else
    let (w0, s) := uaNextWord s
    let (w1, s) := uaNextWord s
    let v := (w0 <<< 16) ||| w1
    (v, { s with got_limm := true, g_limm := v })

/-! ### Legacy (ARCTangent-A4, fixed 32-bit) decoder -/

/-- `doRegisterOperand`: convert a 6-bit register/immediate code to an
operand (`d` = short immediate, `li` = fetched long immediate) -/
def doRegisterOperand (code : Int) (op : OpT) (d : Int) (li : Nat) (isbranch : Bool) : OpT :=
  let op := { op with dtyp := dt_dword }
  if code = (SHIMM_F : Int) ∨ code = (SHIMM : Int) then
    if isbranch then { op with type := o_near, addr := d * 4 }
    else { op with type := o_imm, value := d }
  else if code = (LIMM : Int) then
    if isbranch then
      { op with type := o_near, addr := ((li &&& 0x1FFFFFF) * 4 : Nat), offb := 4 }
    else { op with type := o_imm, value := (li : Int), offb := 4 }
  else
    { op with type := o_reg, reg := uint16 code.toNat }

/-- `doIndirectOperand`: make an indirect `[b,c]` operand; reads the
`zz` field of `auxpref` (the C reads the global `cmd.auxpref`) -/
def doIndirectOperand (b c : Int) (op : OpT) (d : Int) (li : Nat) (special : Bool) (auxpref : Nat) : OpT :=
  let op :=
    if is_imm b && is_imm c then
      let imm1 : Int := if b = (LIMM : Int) then (li : Int) else d
      let imm2 : Int := if c = (LIMM : Int) then (li : Int) else d
      let imm2 := if special then 0 else imm2
      { op with type := o_mem, addr := imm1 + imm2 }
    else if !is_imm b && !is_imm c then
      { op with type := o_phrase, reg := uint16 b.toNat, secreg := uint16 c.toNat }
    else if is_imm c then
      { op with
        type := o_displ
        reg := uint16 b.toNat
        addr := if special then 0 else if c = (LIMM : Int) then (li : Int) else d
        membase := 0 }
    else
      { op with
        type := o_displ
        reg := uint16 c.toNat
        addr := if b = (LIMM : Int) then (li : Int) else d
        membase := 1 }
  let dt := if auxpref &&& aux_zmask = aux_b then dt_byte
            else if auxpref &&& aux_zmask = aux_w then dt_word
            else dt_dword
  { op with dtyp := dt }

/-- `doBranchOperand`: pc-relative word offset, `addr = ip + l*4 + 4` -/
def doBranchOperand (ea : Nat) (op : OpT) (l : Int) : OpT :=
  { op with dtyp := dt_dword, type := o_near, addr := (ea : Int) + l * 4 + 4, offb := 0 }

/-- `doRegisterInstruction`: the legacy register-format decode, with the
inline pseudo-instruction folding (mov/lsl/rlc/nop heuristics).  The
major-class switch is modelled as an `Option`: `none` encodes the early
`return` taken for undefined single-operand `d` values, which leaves
`cmd.itype` untouched. -/
def doRegisterInstruction (code : Nat) (s : DState) : DState :=
  let i := (code >>> 27) &&& 31
  let a : Int := ((code >>> 21) &&& 63 : Nat)
  let b : Int := ((code >>> 15) &&& 63 : Nat)
  let c : Int := ((code >>> 9) &&& 63 : Nat)
  let d : Int :=
    if (code &&& 0x1FF) ≥ 0x100 then ((code &&& 0x1FF : Nat) : Int) - 0x200
    else ((code &&& 0x1FF : Nat) : Int)
  let auxpref : Nat := code &&& 0x1FF
  let step : Option (Nat × Int × Int × Int × Nat) :=
    if i = 0 then some (ARC_ld, a, b, c, auxpref)
    else if i = 1 then
      some ((if code &&& (1 <<< 13) ≠ 0 then ARC_lr else ARC_ld), a, b, c, auxpref)
    else if i = 2 then
      some ((if code &&& (1 <<< 25) ≠ 0 then ARC_sr else ARC_st), a, b, c, auxpref)
    else if i = 3 then
      (if c = 0 then some (ARC_flag, b, b, -1, auxpref)
       else if c = 1 then some (ARC_asr, a, b, -1, auxpref)
       else if c = 2 then some (ARC_lsr, a, b, -1, auxpref)
       else if c = 3 then some (ARC_ror, a, b, -1, auxpref)
       else if c = 4 then some (ARC_rrc, a, b, -1, auxpref)
       else if c = 5 then some (ARC_sexb, a, b, -1, auxpref)
       else if c = 6 then some (ARC_sexw, a, b, -1, auxpref)
       else if c = 7 then some (ARC_extb, a, b, -1, auxpref)
       else if c = 8 then some (ARC_extw, a, b, -1, auxpref)
       else if c = 9 then some (ARC_swap, a, b, -1, auxpref)
       else if c = 10 then some (ARC_norm, a, b, -1, auxpref)
       else if c = 0x3F then
         (if d = 0 then some (ARC_brk, -1, -1, -1, 0)
          else if d = 1 then some (ARC_sleep, -1, -1, -1, 0)
          else if d = 2 then some (ARC_swi, -1, -1, -1, 0)
          else none)
       else some (s.cmd.itype, a, b, -1, auxpref))
    else if i = 7 then
      some ((if code &&& (1 <<< 9) ≠ 0 then ARC_jl else ARC_j), a, b, c, auxpref)
    else if i = 8 then some (ARC_add, a, b, c, auxpref)
    else if i = 9 then some (ARC_adc, a, b, c, auxpref)
    else if i = 10 then some (ARC_sub, a, b, c, auxpref)
    else if i = 11 then some (ARC_sbc, a, b, c, auxpref)
    else if i = 12 then some (ARC_and, a, b, c, auxpref)
    else if i = 13 then some (ARC_or, a, b, c, auxpref)
    else if i = 14 then some (ARC_bic, a, b, c, auxpref)
    else if i = 15 then some (ARC_xor, a, b, c, auxpref)
    else if i = 0x10 then some (ARC_asl, a, b, c, auxpref)
    else if i = 0x11 then some (ARC_lsr, a, b, c, auxpref)
    else if i = 0x12 then some (ARC_asr, a, b, c, auxpref)
    else if i = 0x13 then some (ARC_ror, a, b, c, auxpref)
    else if i = 0x14 then some (ARC_mul64, a, b, c, auxpref)
    else if i = 0x15 then some (ARC_mulu64, a, b, c, auxpref)
    else if i = 0x1E then some (ARC_max, a, b, c, auxpref)
    else if i = 0x1F then some (ARC_min, a, b, c, auxpref)
    else some (s.cmd.itype, a, b, c, auxpref)
  match step with
  | none => { s with cmd := { s.cmd with auxpref := auxpref } }
  | some (ity, a, b, c, auxpref) =>
    let auxpref :=
      if a = (SHIMM_F : Int) ∨ b = (SHIMM_F : Int) ∨ c = (SHIMM_F : Int) then aux_f else auxpref
    let auxpref := if b = (SHIMM : Int) ∨ c = (SHIMM : Int) then 0 else auxpref
    let (immediate, s) :=
      if b = (LIMM : Int) ∨ c = (LIMM : Int) then uaNextLong s else ((0 : Nat), s)
    let (ity, b, d, immediate, noop3, isnop) :=
      if ity = ARC_flag then (ity, (-1 : Int), d, immediate, false, false)
      else if ity = ARC_and ∨ ity = ARC_or then
        (if b = c then (ARC_mov, b, d, immediate, true, false)
         else (ity, b, d, immediate, false, false))
      else if ity = ARC_add then
        (if b = c then
           (if b ≥ (SHIMM_F : Int) then (ARC_mov, b, d * 2, immediate * 2 % 4294967296, true, false)
            else (ARC_lsl, b, d, immediate, true, false))
         else (ity, b, d, immediate, false, false))
      else if ity = ARC_adc then
        (if b = c then (ARC_rlc, b, d, immediate, true, false)
         else (ity, b, d, immediate, false, false))
      else if ity = ARC_xor then (ity, b, d, immediate, false, code = 0x7FFFFFFF)
      else (ity, b, d, immediate, false, false)
    if ¬isnop then
      if i = 0 then
        let op1 := doRegisterOperand a s.cmd.Op1 d immediate false
        let op2 := doIndirectOperand b c s.cmd.Op2 d immediate false auxpref
        { s with cmd := { s.cmd with itype := ity, auxpref := auxpref, Op1 := op1, Op2 := op2 } }
      else if i = 1 ∨ i = 2 then
        let auxpref :=
          if ity = ARC_ld then (code >>> 9) &&& 0x3F
          else if ity = ARC_st then (code >>> 21) &&& 0x3F
          else 0
        let a := if ity = ARC_st ∨ ity = ARC_sr then c else a
        let op1 := doRegisterOperand a s.cmd.Op1 d immediate false
        let op2 :=
          doIndirectOperand b (SHIMM : Int) s.cmd.Op2 d immediate
            (ity = ARC_lr ∨ ity = ARC_sr) auxpref
        { s with cmd := { s.cmd with itype := ity, auxpref := auxpref, Op1 := op1, Op2 := op2 } }
      else if i = 7 then
        let op1 := doRegisterOperand b s.cmd.Op1 d immediate true
        { s with cmd := { s.cmd with itype := ity, auxpref := auxpref, Op1 := op1 } }
      else
        let op1 := if a ≠ -1 then doRegisterOperand a s.cmd.Op1 0 immediate false else s.cmd.Op1
        let op2 := if b ≠ -1 then doRegisterOperand b s.cmd.Op2 d immediate false else s.cmd.Op2
        let op3 :=
          if c ≠ -1 ∧ ¬noop3 then doRegisterOperand c s.cmd.Op3 d immediate false else s.cmd.Op3
        { s with cmd :=
          { s.cmd with itype := ity, auxpref := auxpref, Op1 := op1, Op2 := op2, Op3 := op3 } }
    else
      { s with cmd := { s.cmd with itype := ARC_nop, auxpref := 0 } }

/-- `doBranchInstruction`: legacy Bcc/BLcc/LPcc -/
def doBranchInstruction (code : Nat) (s : DState) : DState :=
  let i := (code >>> 27) &&& 31
  let l : Int :=
    if ((code >>> 7) &&& 0xFFFFF) ≥ 0x80000 then
      (((code >>> 7) &&& 0xFFFFF : Nat) : Int) - 0x100000
    else (((code >>> 7) &&& 0xFFFFF : Nat) : Int)
  let op1 := doBranchOperand s.cmd.ea s.cmd.Op1 l
  let ity :=
    if i = 4 then ARC_b
    else if i = 5 then ARC_bl
    else if i = 6 then ARC_lp
    else s.cmd.itype
  { s with cmd := { s.cmd with Op1 := op1, itype := ity, auxpref := code &&& 0x1FF } }

/-- `ana_old`: analyze one ARCTangent-A4 32-bit instruction -/
def anaOld (s : DState) : Nat × DState :=
  if s.cmd.ea % 4 ≠ 0 then (0, s)
  else
    let s := { s with cmd :=
      { s.cmd with
        Op1 := { s.cmd.Op1 with dtyp := dt_dword }
        Op2 := { s.cmd.Op2 with dtyp := dt_dword }
        Op3 := { s.cmd.Op3 with dtyp := dt_dword } } }
    let (code, s) := uaNextLong s
    let i := (code >>> 27) &&& 31
    let s := { s with cmd := { s.cmd with itype := 0 } }
    let s :=
      if i ≤ 3 then doRegisterInstruction code s
      else if i ≤ 6 then doBranchInstruction code s
      else doRegisterInstruction code s
    (s.cmd.size, s)

/-! ### ARCompact opcode table infrastructure -/

/-- `aux_flags_t`: auxiliary-decode selectors stored in table entries -/
def AUX_B : Nat := 1
def AUX_W : Nat := 2
def Q_4_0 : Nat := 4
def AAZZXD_23_15 : Nat := 8
def DAAZZX_11_6 : Nat := 0x10
def DAAZZR_5_0 : Nat := 0x20
def AUX_D : Nat := 0x40
def AUX_X : Nat := 0x80
def AUX_CND : Nat := 0x100
def N_5 : Nat := 0x200
def AUX_GEN : Nat := 0x400
def AUX_GEN2 : Nat := 0x800

/-- `op_fields_t`: operand-kind tags (enum values 1..43 in source order) -/
def fA32 : Nat := 1
def fA16 : Nat := 2
def fB32 : Nat := 3
def fB16 : Nat := 4
def fC32 : Nat := 5
def fC16 : Nat := 6
def fH16 : Nat := 7
def S25 : Nat := 8
def S21 : Nat := 9
def S25L : Nat := 10
def S21L : Nat := 11
def S10 : Nat := 12
def S9 : Nat := 13
def S8 : Nat := 14
def S7 : Nat := 15
def S13 : Nat := 16
def U3 : Nat := 17
def U5 : Nat := 18
def U6 : Nat := 19
def U7 : Nat := 20
def U7L : Nat := 21
def U8 : Nat := 22
def SP_U7 : Nat := 23
def PCL_U10 : Nat := 24
def fB_U5 : Nat := 25
def fB_U6 : Nat := 26
def fB_U7 : Nat := 27
def fB_S9 : Nat := 28
def GENA : Nat := 29
def GENB : Nat := 30
def GENC : Nat := 31
def GENC_PCREL : Nat := 32
def fBC_IND : Nat := 33
def fBC16_IND : Nat := 34
def R_SP : Nat := 35
def R_BLINK : Nat := 36
def O_ZERO : Nat := 37
def R_R0 : Nat := 38
def R_GP : Nat := 39
def GP_S9 : Nat := 40
def GP_S10 : Nat := 41
def GP_S11 : Nat := 42
def S11 : Nat := 43

/-- operand modifier flag: indirect (memory) access -/
def O_IND : Nat := 0x80000000

/-- `arcompact_opcode_t`: one opcode-table line: mnemonic (bit 31 set
marks a subtable pointer, as the C `SUBTABLE` macros encode), aux-flag
mask, three operand tags, child table -/
inductive AEntry : Type where
  | mk (mnem aux op1 op2 op3 : Nat) (subtable : List AEntry)

/-- `{ 0 }`: an unassigned (invalid) table line -/
def zent : AEntry := .mk 0 0 0 0 0 []

instance : Inhabited AEntry := ⟨zent⟩

/-- a terminal table line -/
def ent (mnem aux o1 o2 o3 : Nat) : AEntry := .mk mnem aux o1 o2 o3 []

/-- `SUBTABLE(high, low, name)` -/
def SUBTABLE (high low : Nat) (t : List AEntry) : AEntry :=
  .mk (0x80000000 ||| (high <<< 8) ||| low) 0 0 0 0 t

/-- `SUBTABLE2(high1, low1, high2, low2, name)` -/
def SUBTABLE2 (high1 low1 high2 low2 : Nat) (t : List AEntry) : AEntry :=
  .mk (0x80000000 ||| (high1 <<< 24) ||| (low1 <<< 16) ||| (high2 <<< 8) ||| low2) 0 0 0 0 t

/-- indexed by bit 16 (maj = 0) -/
def arcompact_maj0 : List AEntry := [
  ent ARC_b (Q_4_0 ||| N_5) S21 0 0,
  ent ARC_b N_5 S25 0 0]

/-- indexed by bit 17 (maj = 1, b16 = 0) -/
def arcompact_bl : List AEntry := [
  ent ARC_bl (Q_4_0 ||| N_5) S21L 0 0,
  ent ARC_bl N_5 S25L 0 0]

/-- indexed by bits 3..0 (maj = 1, b16 = 1, b4 = 0) -/
def arcompact_br_regreg : List AEntry := [
  ent ARC_br (AUX_CND ||| cEQ ||| N_5) fB32 fC32 S9,
  ent ARC_br (AUX_CND ||| cNE ||| N_5) fB32 fC32 S9,
  ent ARC_br (AUX_CND ||| cLT ||| N_5) fB32 fC32 S9,
  ent ARC_br (AUX_CND ||| cGE ||| N_5) fB32 fC32 S9,
  ent ARC_br (AUX_CND ||| cLO ||| N_5) fB32 fC32 S9,
  ent ARC_br (AUX_CND ||| cHS ||| N_5) fB32 fC32 S9,
  zent, zent, zent, zent, zent, zent, zent, zent,
  ent ARC_bbit0 N_5 fB32 fC32 S9,
  ent ARC_bbit1 N_5 fB32 fC32 S9]

/-- indexed by bits 3..0 (maj = 1, b16 = 1, b4 = 1) -/
def arcompact_br_regimm : List AEntry := [
  ent ARC_br (AUX_CND ||| cEQ ||| N_5) fB32 U6 S9,
  ent ARC_br (AUX_CND ||| cNE ||| N_5) fB32 U6 S9,
  ent ARC_br (AUX_CND ||| cLT ||| N_5) fB32 U6 S9,
  ent ARC_br (AUX_CND ||| cGE ||| N_5) fB32 U6 S9,
  ent ARC_br (AUX_CND ||| cLO ||| N_5) fB32 U6 S9,
  ent ARC_br (AUX_CND ||| cHS ||| N_5) fB32 U6 S9,
  zent, zent, zent, zent, zent, zent, zent, zent,
  ent ARC_bbit0 N_5 fB32 U6 S9,
  ent ARC_bbit1 N_5 fB32 U6 S9]

/-- indexed by bit 4 (maj = 1, b16 = 1) -/
def arcompact_br : List AEntry := [
  SUBTABLE 3 0 arcompact_br_regreg,
  SUBTABLE 3 0 arcompact_br_regimm] ++ List.replicate 2 zent

/-- indexed by bit 16 (maj = 1) -/
def arcompact_maj1 : List AEntry := [
  SUBTABLE 17 17 arcompact_bl,
  SUBTABLE 4 4 arcompact_br] ++ List.replicate 62 zent

/-- indexed by bits 14..12 & 26..24 (maj = 4, 21..16=0x2F, 5..0=0x3F) -/
def arcompact_zop : List AEntry := [
  zent,
  ent ARC_sleep 0 GENC 0 0,
  ent ARC_swi 0 0 0 0,
  ent ARC_sync 0 0 0 0,
  ent ARC_rtie 0 0 0 0,
  ent ARC_brk 0 0 0 0] ++ List.replicate 58 zent

/-- indexed by bits 5..0 (maj = 4, 21..16=0x2F) -/
def arcompact_sop : List AEntry := [
  ent ARC_asl 0 GENB GENC 0,
  ent ARC_asr 0 GENB GENC 0,
  ent ARC_lsr 0 GENB GENC 0,
  ent ARC_ror 0 GENB GENC 0,
  ent ARC_rrc 0 GENB GENC 0,
  ent ARC_sexb 0 GENB GENC 0,
  ent ARC_sexw 0 GENB GENC 0,
  ent ARC_extb 0 GENB GENC 0,
  ent ARC_extw 0 GENB GENC 0,
  ent ARC_abs 0 GENB GENC 0,
  ent ARC_not 0 GENB GENC 0,
  ent ARC_rlc 0 GENB GENC 0,
  ent ARC_ex 0 GENB (GENC ||| O_IND) 0] ++ List.replicate 50 zent ++ [
  SUBTABLE2 14 12 26 24 arcompact_zop]

/-- indexed by bits 21..16 (maj = 4) -/
def arcompact_maj4 : List AEntry := [
  ent ARC_add AUX_GEN GENA GENB GENC,
  ent ARC_adc AUX_GEN GENA GENB GENC,
  ent ARC_sub AUX_GEN GENA GENB GENC,
  ent ARC_sbc AUX_GEN GENA GENB GENC,
  ent ARC_and AUX_GEN GENA GENB GENC,
  ent ARC_or AUX_GEN GENA GENB GENC,
  ent ARC_bic AUX_GEN GENA GENB GENC,
  ent ARC_xor AUX_GEN GENA GENB GENC,
  ent ARC_max AUX_GEN GENA GENB GENC,
  ent ARC_min AUX_GEN GENA GENB GENC,
  ent ARC_mov AUX_GEN GENB GENC 0,
  ent ARC_tst AUX_GEN2 GENB GENC 0,
  ent ARC_cmp AUX_GEN2 GENB GENC 0,
  ent ARC_rcmp AUX_GEN GENB GENC 0,
  ent ARC_rsub AUX_GEN GENA GENB GENC,
  ent ARC_bset AUX_GEN GENA GENB GENC,
  ent ARC_bclr AUX_GEN GENA GENB GENC,
  ent ARC_btst AUX_GEN2 GENB GENC 0,
  ent ARC_bxor AUX_GEN GENA GENB GENC,
  ent ARC_bmsk AUX_GEN GENA GENB GENC,
  ent ARC_add1 AUX_GEN GENA GENB GENC,
  ent ARC_add2 AUX_GEN GENA GENB GENC,
  ent ARC_add3 AUX_GEN GENA GENB GENC,
  ent ARC_sub1 AUX_GEN GENA GENB GENC,
  ent ARC_sub2 AUX_GEN GENA GENB GENC,
  ent ARC_sub3 AUX_GEN GENA GENB GENC,
  ent ARC_mpy AUX_GEN GENA GENB GENC,
  ent ARC_mpyh AUX_GEN GENA GENB GENC,
  ent ARC_mpyhu AUX_GEN GENA GENB GENC,
  ent ARC_mpyu AUX_GEN GENA GENB GENC,
  zent,
  zent,
  ent ARC_j AUX_GEN (GENC ||| O_IND) 0 0,
  ent ARC_j (AUX_GEN ||| AUX_D) (GENC ||| O_IND) 0 0,
  ent ARC_jl AUX_GEN (GENC ||| O_IND) 0 0,
  ent ARC_jl (AUX_GEN ||| AUX_D) (GENC ||| O_IND) 0 0,
  zent, zent, zent, zent,
  ent ARC_lp AUX_GEN2 GENC_PCREL 0 0,
  ent ARC_flag AUX_GEN2 GENC 0 0,
  ent ARC_lr 0 GENB (GENC ||| O_IND) 0,
  ent ARC_sr 0 GENB (GENC ||| O_IND) 0,
  zent, zent, zent,
  SUBTABLE 5 0 arcompact_sop,
  ent ARC_ld AAZZXD_23_15 fA32 fBC_IND 0,
  ent ARC_ld AAZZXD_23_15 fA32 fBC_IND 0,
  ent ARC_ld AAZZXD_23_15 fA32 fBC_IND 0,
  ent ARC_ld AAZZXD_23_15 fA32 fBC_IND 0,
  ent ARC_ld AAZZXD_23_15 fA32 fBC_IND 0,
  ent ARC_ld AAZZXD_23_15 fA32 fBC_IND 0,
  ent ARC_ld AAZZXD_23_15 fA32 fBC_IND 0,
  ent ARC_ld AAZZXD_23_15 fA32 fBC_IND 0] ++ List.replicate 8 zent

/-- indexed by bits 14..12 & 26..24 (maj = 5, 21..16=0x2F, 5..0=0x3F) -/
def arcompact_zop5 : List AEntry := List.replicate 64 zent

/-- indexed by bits 5..0 (maj = 5, 21..16=0x2F) -/
def arcompact_sop5 : List AEntry := [
  ent ARC_swap AUX_GEN GENB GENC 0,
  ent ARC_norm AUX_GEN GENB GENC 0,
  ent ARC_sat16 AUX_GEN GENB GENC 0,
  ent ARC_rnd16 AUX_GEN GENB GENC 0,
  ent ARC_abssw AUX_GEN GENB GENC 0,
  ent ARC_abss AUX_GEN GENB GENC 0,
  ent ARC_negsw AUX_GEN GENB GENC 0,
  ent ARC_negs AUX_GEN GENB GENC 0,
  ent ARC_normw AUX_GEN GENB GENC 0] ++ List.replicate 54 zent ++ [
  SUBTABLE2 14 12 26 24 arcompact_zop5]

/-- indexed by bits 21..16 (maj = 5) -/
def arcompact_maj5 : List AEntry := [
  ent ARC_asl AUX_GEN GENA GENB GENC,
  ent ARC_lsr AUX_GEN GENA GENB GENC,
  ent ARC_asr AUX_GEN GENA GENB GENC,
  ent ARC_ror AUX_GEN GENA GENB GENC,
  ent ARC_mul64 AUX_GEN O_ZERO GENB GENC,
  ent ARC_mulu64 AUX_GEN O_ZERO GENB GENC,
  ent ARC_adds AUX_GEN GENA GENB GENC,
  ent ARC_subs AUX_GEN GENA GENB GENC,
  ent ARC_divaw AUX_GEN GENA GENB GENC,
  zent,
  ent ARC_asls AUX_GEN GENA GENB GENC,
  ent ARC_asrs AUX_GEN GENB GENC GENC,
  ent ARC_muldw AUX_GEN GENB GENC GENC,
  ent ARC_muludw AUX_GEN GENB GENC GENC,
  ent ARC_mulrdw AUX_GEN GENB GENC GENC,
  zent,
  ent ARC_macdw AUX_GEN GENB GENC GENC,
  ent ARC_macudw AUX_GEN GENB GENC GENC,
  ent ARC_macrdw AUX_GEN GENB GENC GENC,
  zent,
  ent ARC_msubdw AUX_GEN GENB GENC GENC] ++ List.replicate 19 zent ++ [
  ent ARC_addsdw AUX_GEN GENA GENB GENC,
  ent ARC_subsdw AUX_GEN GENA GENB GENC,
  zent, zent, zent, zent, zent,
  SUBTABLE 5 0 arcompact_sop5,
  ent ARC_mululw AUX_GEN GENB GENC GENC,
  ent ARC_mullw AUX_GEN GENB GENC GENC,
  ent ARC_mulflw AUX_GEN GENB GENC GENC,
  ent ARC_maclw AUX_GEN GENB GENC GENC,
  ent ARC_macflw AUX_GEN GENB GENC GENC,
  ent ARC_machulw AUX_GEN GENB GENC GENC,
  ent ARC_machlw AUX_GEN GENB GENC GENC,
  ent ARC_machflw AUX_GEN GENB GENC GENC,
  ent ARC_mulhlw AUX_GEN GENB GENC GENC,
  ent ARC_mulhflw AUX_GEN GENB GENC GENC] ++ List.replicate 6 zent

/-- indexed by bits 4..3 (maj = 0xC) -/
def arcompact_maj0C : List AEntry := [
  ent ARC_ld 0 fA16 fBC16_IND 0,
  ent ARC_ld AUX_B fA16 fBC16_IND 0,
  ent ARC_ld AUX_W fA16 fBC16_IND 0,
  ent ARC_add 0 fA16 fB16 fC16]

/-- indexed by bits 4..3 (maj = 0xD) -/
def arcompact_maj0D : List AEntry := [
  ent ARC_add 0 fC16 fB16 U3,
  ent ARC_sub 0 fC16 fB16 U3,
  ent ARC_asl 0 fC16 fB16 U3,
  ent ARC_asr 0 fC16 fB16 U3]

/-- indexed by bits 4..3 (maj = 0xE) -/
def arcompact_maj0E : List AEntry := [
  ent ARC_add 0 fB16 fB16 fH16,
  ent ARC_mov 0 fB16 fH16 0,
  ent ARC_cmp 0 fB16 fH16 0,
  ent ARC_mov 0 fH16 fB16 0]

/-- indexed by bits 10..8 (maj = 0xF, 4..0 = 0x0, 7..5 = 0x7) -/
def arcompact_zop16 : List AEntry := [
  ent ARC_nop 0 0 0 0,
  ent ARC_unimp 0 0 0 0,
  zent,
  zent,
  ent ARC_j (AUX_CND ||| cEQ) (R_BLINK ||| O_IND) 0 0,
  ent ARC_j (AUX_CND ||| cNE) (R_BLINK ||| O_IND) 0 0,
  ent ARC_j 0 (R_BLINK ||| O_IND) 0 0,
  ent ARC_j AUX_D (R_BLINK ||| O_IND) 0 0]

/-- indexed by bits 7..5 (maj = 0xF, 4..0 = 0x0) -/
def arcompact_sop16 : List AEntry := [
  ent ARC_j 0 (fB16 ||| O_IND) 0 0,
  ent ARC_j AUX_D (fB16 ||| O_IND) 0 0,
  ent ARC_jl 0 (fB16 ||| O_IND) 0 0,
  ent ARC_jl AUX_D (fB16 ||| O_IND) 0 0,
  zent,
  zent,
  ent ARC_sub (AUX_CND ||| cNE) fB16 fB16 fB16,
  SUBTABLE 10 8 arcompact_zop16]

/-- indexed by bits 4..0 (maj = 0xF) -/
def arcompact_maj0F : List AEntry := [
  SUBTABLE 7 5 arcompact_sop16,
  zent,
  ent ARC_sub 0 fB16 fB16 fC16,
  zent,
  ent ARC_and 0 fB16 fB16 fC16,
  ent ARC_or 0 fB16 fB16 fC16,
  ent ARC_bic 0 fB16 fB16 fC16,
  ent ARC_xor 0 fB16 fB16 fC16,
  zent,
  zent,
  zent,
  ent ARC_tst 0 fB16 fC16 0,
  ent ARC_mul64 0 fB16 fC16 0,
  ent ARC_sexb 0 fB16 fC16 0,
  ent ARC_sexw 0 fB16 fC16 0,
  ent ARC_extb 0 fB16 fC16 0,
  ent ARC_extw 0 fB16 fC16 0,
  ent ARC_abs 0 fB16 fC16 0,
  ent ARC_not 0 fB16 fC16 0,
  ent ARC_neg 0 fB16 fC16 0,
  ent ARC_add1 0 fB16 fB16 fC16,
  ent ARC_add2 0 fB16 fB16 fC16,
  ent ARC_add3 0 fB16 fB16 fC16,
  zent,
  ent ARC_asl 0 fB16 fB16 fC16,
  ent ARC_lsr 0 fB16 fB16 fC16,
  ent ARC_asr 0 fB16 fB16 fC16,
  ent ARC_asl 0 fB16 fC16 0,
  ent ARC_asr 0 fB16 fC16 0,
  ent ARC_lsr 0 fB16 fC16 0,
  ent ARC_trap 0 0 0 0,
  ent ARC_brk 0 0 0 0]

/-- indexed by bits 7..5 (maj = 0x17) -/
def arcompact_maj17 : List AEntry := [
  ent ARC_asl 0 fB16 fB16 U5,
  ent ARC_lsr 0 fB16 fB16 U5,
  ent ARC_asr 0 fB16 fB16 U5,
  ent ARC_sub 0 fB16 fB16 U5,
  ent ARC_bset 0 fB16 fB16 U5,
  ent ARC_bclr 0 fB16 fB16 U5,
  ent ARC_bmsk 0 fB16 fB16 U5,
  ent ARC_btst 0 fB16 U5 0]

/-- indexed by bits 10..8 (maj = 0x18, i=5) -/
def arcompact_sp_addsub : List AEntry := [
  ent ARC_add 0 R_SP R_SP U7L,
  ent ARC_sub 0 R_SP R_SP U7L] ++ List.replicate 6 zent

/-- indexed by bits 4..0 (maj = 0x18, i=6) -/
def arcompact_sp_pops : List AEntry := [
  zent,
  ent ARC_pop 0 fB16 0 0] ++ List.replicate 15 zent ++ [
  ent ARC_pop 0 R_BLINK 0 0] ++ List.replicate 14 zent

/-- indexed by bits 4..0 (maj = 0x18, i=7) -/
def arcompact_sp_pushs : List AEntry := [
  zent,
  ent ARC_push 0 fB16 0 0] ++ List.replicate 15 zent ++ [
  ent ARC_push 0 R_BLINK 0 0] ++ List.replicate 14 zent

/-- indexed by bits 7..5 (maj = 0x18): sp-based instructions -/
def arcompact_maj18 : List AEntry := [
  ent ARC_ld 0 fB16 SP_U7 0,
  ent ARC_ld AUX_B fB16 SP_U7 0,
  ent ARC_st 0 fB16 SP_U7 0,
  ent ARC_st AUX_B fB16 SP_U7 0,
  ent ARC_add 0 fB16 R_SP U7L,
  SUBTABLE 10 8 arcompact_sp_addsub,
  SUBTABLE 4 0 arcompact_sp_pops,
  SUBTABLE 4 0 arcompact_sp_pushs]

/-- indexed by bits 10..9 (maj = 0x19): gp-based ld/add -/
def arcompact_maj19 : List AEntry := [
  ent ARC_ld 0 R_R0 GP_S11 0,
  ent ARC_ld AUX_B R_R0 GP_S9 0,
  ent ARC_ld AUX_W R_R0 GP_S10 0,
  ent ARC_add 0 R_R0 R_GP S11]

/-- indexed by bit 7 (maj = 0x1C) -/
def arcompact_maj1C : List AEntry := [
  ent ARC_add 0 fB16 fB16 U7,
  ent ARC_cmp 0 fB16 U7 0]

/-- indexed by bit 7 (maj = 0x1D) -/
def arcompact_maj1D : List AEntry := [
  ent ARC_br (AUX_CND ||| cEQ) fB16 O_ZERO S8,
  ent ARC_br (AUX_CND ||| cNE) fB16 O_ZERO S8]

/-- indexed by bits 8..6 (maj = 0x1E, 10..9 = 0x3) -/
def arcompact_bcc16 : List AEntry := [
  ent ARC_b (AUX_CND ||| cGT) S7 0 0,
  ent ARC_b (AUX_CND ||| cGE) S7 0 0,
  ent ARC_b (AUX_CND ||| cLT) S7 0 0,
  ent ARC_b (AUX_CND ||| cLE) S7 0 0,
  ent ARC_b (AUX_CND ||| cHI) S7 0 0,
  ent ARC_b (AUX_CND ||| cHS) S7 0 0,
  ent ARC_b (AUX_CND ||| cLO) S7 0 0,
  ent ARC_b (AUX_CND ||| cLS) S7 0 0]

/-- indexed by bits 10..9 (maj = 0x1E) -/
def arcompact_maj1E : List AEntry := [
  ent ARC_b 0 S10 0 0,
  ent ARC_b (AUX_CND ||| cEQ) S10 0 0,
  ent ARC_b (AUX_CND ||| cNE) S10 0 0,
  SUBTABLE 8 6 arcompact_bcc16]

/-- indexed by major opcode (bits 15..11) -/
def arcompact_major : List AEntry := [
  SUBTABLE 16 16 arcompact_maj0,
  SUBTABLE 16 16 arcompact_maj1,
  ent ARC_ld DAAZZX_11_6 fA32 fB_S9 0,
  ent ARC_st DAAZZR_5_0 fC32 fB_S9 0,
  SUBTABLE 21 16 arcompact_maj4,
  SUBTABLE 21 16 arcompact_maj5,
  zent, zent, zent, zent, zent, zent,
  SUBTABLE 4 3 arcompact_maj0C,
  SUBTABLE 4 3 arcompact_maj0D,
  SUBTABLE 4 3 arcompact_maj0E,
  SUBTABLE 4 0 arcompact_maj0F,
  ent ARC_ld 0 fC16 fB_U7 0,
  ent ARC_ld AUX_B fC16 fB_U5 0,
  ent ARC_ld AUX_W fC16 fB_U6 0,
  ent ARC_ld (AUX_W ||| AUX_X) fC16 fB_U6 0,
  ent ARC_st 0 fC16 fB_U7 0,
  ent ARC_st AUX_B fC16 fB_U5 0,
  ent ARC_st AUX_W fC16 fB_U6 0,
  SUBTABLE 7 5 arcompact_maj17,
  SUBTABLE 7 5 arcompact_maj18,
  SUBTABLE 10 9 arcompact_maj19,
  ent ARC_ld 0 fB16 PCL_U10 0,
  ent ARC_mov 0 fB16 U8 0,
  SUBTABLE 7 7 arcompact_maj1C,
  SUBTABLE 7 7 arcompact_maj1D,
  SUBTABLE 10 9 arcompact_maj1E,
  ent ARC_bl 0 S13 0 0]

/-! ### ARCompact operand / aux decoding -/

/-- map a 3-bit compact register code to r0-r3 / r12-r15 -/
def reg16 (rgnum : Nat) : Nat := if rgnum > 3 then rgnum + 8 else rgnum

/-- `opreg`: register operand, or a reference to the long immediate
(r62).  A limm in a written first operand slot skips the fetch and
forces the value to zero. -/
def opreg (env : Env) (x : OpT) (rgnum : Nat) (s : DState) : OpT × DState :=
  if rgnum ≠ LIMM then
    ({ x with reg := uint16 rgnum, type := o_reg, dtyp := dt_dword }, s)
  else if x.n = 0 ∧ env.cf_chg1 s.cmd.itype then
    ({ x with type := o_imm, value := 0, dtyp := dt_dword }, s)
  else
    let (v, s) := getLimm s
    ({ x with type := o_imm, value := (v : Int), dtyp := dt_dword }, s)

/-- `opimm`: immediate operand -/
def opimm (x : OpT) (val : Int) : OpT :=
  { x with value := val, type := o_imm, dtyp := dt_dword }

/-- `opdisp`: base-plus-displacement operand (r62 base becomes a direct
memory reference through the long immediate) -/
def opdisp (x : OpT) (rgnum : Nat) (disp : Int) (s : DState) : OpT × DState :=
  if rgnum ≠ LIMM then
    ({ x with type := o_displ, addr := disp, reg := rgnum, dtyp := dt_dword }, s)
  else
    let (v, s) := getLimm s
    ({ x with type := o_mem, addr := (v : Int) + disp, dtyp := dt_dword }, s)

/-- `opbranch`: branch target `cPCL + delta`, where PCL is the current
instruction address with its 2 low bits cleared (`cmd.ip & ~3ul`) -/
def opbranch (ea : Nat) (x : OpT) (delta : Int) : OpT :=
  { x with type := o_near, dtyp := dt_code, addr := ((ea - ea % 4 : Nat) : Int) + delta }

/-- the operand-kind switch of `decode_operand`: `none` models the
`default:` diagnostic branch (undecodable tag: the operand is left
untouched and the `O_IND` post-processing is skipped, as the C `return`
does) -/
def decode_operand_core (env : Env) (code : Nat) (x : OpT) (opkind : Nat) (s : DState) :
    Option (OpT × DState) :=
    let k := opkind &&& 0x7FFFFFFF
    if k = fA16 then some (opreg env x (reg16 (BITS code 2 0)) s)
      else if k = fB16 then some (opreg env x (reg16 (BITS code 10 8)) s)
      else if k = fC16 then some (opreg env x (reg16 (BITS code 7 5)) s)
      else if k = fA32 then some (opreg env x (BITS code 5 0) s)
      else if k = fB32 then some (opreg env x ((BITS code 14 12 <<< 3) ||| BITS code 26 24) s)
      else if k = fC32 then some (opreg env x (BITS code 11 6) s)
      else if k = fH16 then some (opreg env x ((BITS code 2 0 <<< 3) ||| BITS code 7 5) s)
      else if k = S25L ∨ k = S21L ∨ k = S25 ∨ k = S21 then
        let d0 : Nat :=
          if opkind = S25 ∨ opkind = S25L then
            ((BITS code 15 6 <<< 10) ||| BITS code 26 17) ||| (BITS code 3 0 <<< 20)
          else (BITS code 15 6 <<< 10) ||| BITS code 26 17
        let displ : Int :=
          if opkind = S25 ∨ opkind = S25L then
            (if d0 &&& (1 <<< 23) ≠ 0 then (d0 : Int) - (1 <<< 24 : Nat) else (d0 : Int))
          else
            (if d0 &&& (1 <<< 19) ≠ 0 then (d0 : Int) - (1 <<< 20 : Nat) else (d0 : Int))
        -- branch-and-link uses a 32-bit aligned target: `displ &= ~1ul`
        let displ := if opkind = S25L ∨ opkind = S21L then displ - displ % 2 else displ
        some (opbranch s.cmd.ea x (displ * 2), s)
      else if k = S9 then
        let displ : Int :=
          if BITS code 15 15 ≠ 0 then (BITS code 23 17 : Int) - (1 <<< 7 : Nat)
          else (BITS code 23 17 : Int)
        some (opbranch s.cmd.ea x (displ * 2), s)
      else if k = S7 then some (opbranch s.cmd.ea x (SBITS code 5 0 * 2), s)
      else if k = S8 then some (opbranch s.cmd.ea x (SBITS code 6 0 * 2), s)
      else if k = S10 then some (opbranch s.cmd.ea x (SBITS code 8 0 * 2), s)
      else if k = S13 then some (opbranch s.cmd.ea x (SBITS code 10 0 * 4), s)
      else if k = PCL_U10 then some (opdisp x PCL ((BITS code 7 0 : Nat) * 4 : Nat) s)
      else if k = SP_U7 then some (opdisp x SP ((BITS code 4 0 : Nat) * 4 : Nat) s)
      else if k = U3 then some (opimm x (BITS code 2 0 : Nat), s)
      else if k = U7 then some (opimm x (BITS code 6 0 : Nat), s)
      else if k = U6 then some (opimm x (BITS code 11 6 : Nat), s)
      else if k = U5 ∨ k = U7L then
        let displ : Int := (BITS code 4 0 : Nat)
        let displ := if opkind = U7L then displ * 4 else displ
        some (opimm x displ, s)
      else if k = U8 then some (opimm x (BITS code 7 0 : Nat), s)
      else if k = fB_U5 ∨ k = fB_U6 ∨ k = fB_U7 then
        let displ : Int := (BITS code 4 0 : Nat)
        let displ :=
          if opkind = fB_U6 then displ * 2
          else if opkind = fB_U7 then displ * 4
          else displ
        some (opdisp x (reg16 (BITS code 10 8)) displ s)
      else if k = fB_S9 then
        let displ : Int :=
          if BITS code 15 15 ≠ 0 then (BITS code 23 16 : Int) - (1 <<< 8 : Nat)
          else (BITS code 23 16 : Int)
        some (opdisp x ((BITS code 14 12 <<< 3) ||| BITS code 26 24) displ s)
      else if k = GENA then
        let p := BITS code 23 22
        let reg := if p ≤ 1 then BITS code 5 0 else (BITS code 14 12 <<< 3) ||| BITS code 26 24
        some (opreg env x reg s)
      else if k = GENB then some (opreg env x ((BITS code 14 12 <<< 3) ||| BITS code 26 24) s)
      else if k = GENC ∨ k = GENC_PCREL then
        let p := BITS code 23 22
        let (regv, xs) :=
          if p ≠ 2 then
            let r := BITS code 11 6
            if p = 0 ∨ (p = 3 ∧ BITS code 5 5 = 0) then ((r : Int), opreg env x r s)
            else ((r : Int), (opimm x (r : Int), s))
          else
            let r : Int := SIGNEXT ((BITS code 5 0 <<< 6) ||| BITS code 11 6) 12
            (r, (opimm x r, s))
        if (opkind &&& 0x7FFFFFFF) = GENC_PCREL ∧ xs.1.type = o_imm then
          some (opbranch s.cmd.ea xs.1 (regv * 2), xs.2)
        else some xs
      else if k = fBC_IND then
        let b := (BITS code 14 12 <<< 3) ||| BITS code 26 24
        let c := BITS code 11 6
        let (li, s) := if b = LIMM ∨ c = LIMM then getLimm s else ((0 : Nat), s)
        some (doIndirectOperand (b : Int) (c : Int) x 0 li false s.cmd.auxpref, s)
      else if k = fBC16_IND then
        some (doIndirectOperand ((reg16 (BITS code 10 8) : Nat) : Int)
          ((reg16 (BITS code 7 5) : Nat) : Int) x 0 0 false s.cmd.auxpref, s)
      else if k = O_ZERO then some (opimm x 0, s)
      else if k = R_SP then some (opreg env x SP s)
      else if k = R_BLINK then some (opreg env x BLINK s)
      else if k = R_R0 then some (opreg env x R0 s)
      else if k = R_GP then some (opreg env x GP s)
      else if k = GP_S9 ∨ k = GP_S10 ∨ k = GP_S11 ∨ k = S11 then
        let displ := SBITS code 8 0
        let displ :=
          if opkind = GP_S10 then displ * 2
          else if opkind ≠ GP_S9 then displ * 4
          else displ
        if opkind = S11 then some (opimm x displ, s) else some (opdisp x GP displ s)
      else none

/-- `decode_operand`: decode one operand slot: the zero tag is an
absent operand, the switch body is `decode_operand_core`, and a `some`
result goes through the `O_IND` indirect-modifier post-processing -/
def decode_operand (env : Env) (code : Nat) (x : OpT) (opkind : Nat) (s : DState) : OpT × DState :=
  if opkind = 0 then ({ x with type := o_void }, s)
  else
    match decode_operand_core env code x opkind s with
    | none => (x, s)
    | some (x, s) =>
      if opkind &&& O_IND ≠ 0 then
        if x.type = o_reg then ({ x with type := o_displ, addr := 0 }, s)
        else if x.type = o_imm then
          ({ x with
             type := if s.cmd.itype = ARC_j ∨ s.cmd.itype = ARC_jl then o_near else o_mem
             addr := x.value }, s)
        else (x, s)
      else (x, s)

/-- `decode_aux`: decode the non-operand bits into `auxpref` (pure in
the instruction word, the table aux mask and the previous `auxpref`;
unconsumed mask bits are only a diagnostic in the C) -/
def decode_aux (code aux0 auxpref0 : Nat) : Nat :=
  let auxpref := auxpref0
  let (auxpref, aux) :=
    if aux0 &&& AUX_CND ≠ 0 then
      ((clearBits auxpref aux_cmask) ||| (aux0 &&& aux_cmask),
       clearBits aux0 (AUX_CND ||| aux_cmask))
    else (auxpref, aux0)
  let (auxpref, aux) :=
    if aux &&& Q_4_0 ≠ 0 then
      ((clearBits auxpref aux_cmask) ||| (code &&& aux_cmask), clearBits aux Q_4_0)
    else (auxpref, aux)
  let (auxpref, aux) :=
    if aux &&& (AUX_GEN ||| AUX_GEN2) ≠ 0 then
      let auxpref :=
        if aux &&& AUX_GEN2 = 0 ∧ BITS code 15 15 ≠ 0 then auxpref ||| aux_f else auxpref
      let auxpref :=
        if BITS code 23 22 = 3 then (clearBits auxpref aux_cmask) ||| (code &&& aux_cmask)
        else auxpref
      (auxpref, clearBits aux (AUX_GEN ||| AUX_GEN2))
    else (auxpref, aux)
  let (auxpref, aux) :=
    if aux &&& N_5 ≠ 0 then
      ((clearBits auxpref aux_d) ||| (code &&& aux_d), clearBits aux N_5)
    else (auxpref, aux)
  let (auxpref, aux) :=
    if aux &&& AUX_W ≠ 0 then ((clearBits auxpref aux_zmask) ||| aux_w, clearBits aux AUX_W)
    else (auxpref, aux)
  let (auxpref, aux) :=
    if aux &&& AUX_B ≠ 0 then ((clearBits auxpref aux_zmask) ||| aux_b, clearBits aux AUX_B)
    else (auxpref, aux)
  let (auxpref, aux) :=
    if aux &&& AUX_X ≠ 0 then (auxpref ||| aux_x, clearBits aux AUX_X)
    else (auxpref, aux)
  let (auxpref, aux) :=
    if aux &&& AUX_D ≠ 0 then ((clearBits auxpref aux_nmask) ||| aux_d, clearBits aux AUX_D)
    else (auxpref, aux)
  let (auxpref, aux) :=
    if aux &&& DAAZZX_11_6 ≠ 0 then
      ((clearBits auxpref 0x3F) ||| BITS code 11 6, clearBits aux DAAZZX_11_6)
    else (auxpref, aux)
  let (auxpref, aux) :=
    if aux &&& DAAZZR_5_0 ≠ 0 then
      ((clearBits auxpref 0x3F) ||| BITS code 5 0, clearBits aux DAAZZR_5_0)
    else (auxpref, aux)
  let (auxpref, _) :=
    if aux &&& AAZZXD_23_15 ≠ 0 then
      (((clearBits auxpref 0x3F)
          ||| (BITS code 15 15 <<< 5)
          ||| (BITS code 23 22 <<< 3)
          ||| (BITS code 18 17 <<< 1)
          ||| (BITS code 16 16 <<< 0)),
       clearBits aux AAZZXD_23_15)
    else (auxpref, aux)
  auxpref

/-- `analyze_compact`: walk the opcode trie to the selected terminal
entry and decode; returns 0 for an unassigned bit pattern.  The `fuel`
argument bounds the subtable-chain length (the concrete tables never
chain more than three subtables; `ana_compact` passes ample fuel). -/
def analyze_compact (env : Env) : Nat → Nat → Nat → List AEntry → DState → Nat × DState
  | 0, _, _, _, s => (0, s)
  | fuel + 1, code, idx, table, s =>
    match table.getD idx default with
    | .mk mnem aux o1 o2 o3 sub =>
      if mnem &&& 0x80000000 ≠ 0 then
        let high1 := (mnem >>> 24) &&& 0x1F
        let low1 := (mnem >>> 16) &&& 0x1F
        let high2 := (mnem >>> 8) &&& 0x1F
        let low2 := mnem &&& 0x1F
        let idx2 := BITS code high2 low2
        let idx2 :=
          if high1 ≠ 0 ∧ low1 ≠ 0 then idx2 ||| (BITS code high1 low1 <<< (high2 - low2 + 1))
          else idx2
        analyze_compact env fuel code idx2 sub s
      else if mnem = 0 then (0, s)
      else
        let s := { s with cmd := { s.cmd with itype := mnem } }
        let s := { s with cmd := { s.cmd with auxpref := decode_aux code aux s.cmd.auxpref } }
        let (x1, s) := decode_operand env code s.cmd.Op1 o1 s
        let s := { s with cmd := { s.cmd with Op1 := x1 } }
        let (x2, s) := decode_operand env code s.cmd.Op2 o2 s
        let s := { s with cmd := { s.cmd with Op2 := x2 } }
        let (x3, s) := decode_operand env code s.cmd.Op3 o3 s
        let s := { s with cmd := { s.cmd with Op3 := x3 } }
        (s.cmd.size, s)

/-- `ana_compact`: analyze one ARCompact instruction: check 16-bit
alignment, read the first word, clear the long-immediate cache, extend
to 32 bits when the major opcode is below 0xC, then dispatch through
the opcode trie -/
def anaCompact (env : Env) (s : DState) : Nat × DState :=
  if s.cmd.ea % 2 ≠ 0 then (0, s)
  else
    let (code, s) := uaNextWord s
    let s := { s with got_limm := false }
    let i := (code >>> 11) &&& 0x1F
    if i < 0xC then
      let (w2, s) := uaNextWord s
      analyze_compact env 8 ((code <<< 16) ||| w2) i arcompact_major s
    else
      analyze_compact env 8 code i arcompact_major s

/-! ### Post-decode normalizer passes and the entry point -/

/-- `simplify`: pseudo-instruction canonicalization (pure rewrite of the
decoded `cmd`): scaled-index loads/stores, addN/subN immediate folding,
`sub.f 0,a,b` → `cmp a,b` -/
def simplify (cmd : Insn) : Insn :=
  if cmd.itype = ARC_st ∨ cmd.itype = ARC_ld then
    if cmd.Op2.type = o_displ ∧ (cmd.auxpref &&& aux_amask) = aux_as ∧ cmd.Op2.membase = 0 then
      if (cmd.auxpref &&& aux_zmask) = aux_w then
        { cmd with
          Op2 := { cmd.Op2 with addr := cmd.Op2.addr * 2 }
          auxpref := clearBits cmd.auxpref aux_amask }
      else if (cmd.auxpref &&& aux_zmask) = aux_l then
        { cmd with
          Op2 := { cmd.Op2 with addr := cmd.Op2.addr * 4 }
          auxpref := clearBits cmd.auxpref aux_amask }
      else cmd
    else cmd
  else if cmd.itype = ARC_add1 ∨ cmd.itype = ARC_add2 ∨ cmd.itype = ARC_add3
      ∨ cmd.itype = ARC_sub1 ∨ cmd.itype = ARC_sub2 ∨ cmd.itype = ARC_sub3 then
    if cmd.Op3.type = o_imm then
      let mul : Int :=
        if cmd.itype = ARC_add1 ∨ cmd.itype = ARC_sub1 then 2
        else if cmd.itype = ARC_add2 ∨ cmd.itype = ARC_sub2 then 4
        else 8
      let ity :=
        if cmd.itype = ARC_add1 ∨ cmd.itype = ARC_add2 ∨ cmd.itype = ARC_add3 then ARC_add
        else ARC_sub
      { cmd with
        Op3 := { cmd.Op3 with value := cmd.Op3.value * mul }
        itype := ity }
    else cmd
  else if cmd.itype = ARC_sub then
    if cmd.Op1.type = o_imm ∧ cmd.Op1.value = 0 ∧ (cmd.auxpref &&& aux_f) ≠ 0 then
      { cmd with
        auxpref := clearBits cmd.auxpref aux_f
        itype := ARC_cmp
        Op1 := cmd.Op2
        Op2 := cmd.Op3
        Op3 := { cmd.Op3 with type := o_void } }
    else cmd
  else cmd

/-- `fix_ldst`: fix the display width of load/store second operands from
the decoded access-width attribute -/
def fix_ldst (cmd : Insn) : Insn :=
  if cmd.itype = ARC_ld ∨ cmd.itype = ARC_st then
    if cmd.auxpref &&& aux_zmask = aux_b then
      { cmd with Op2 := { cmd.Op2 with dtyp := dt_byte } }
    else if cmd.auxpref &&& aux_zmask = aux_w then
      { cmd with Op2 := { cmd.Op2 with dtyp := dt_word } }
    else cmd
  else cmd

/-- `inline_const`: rewrite `ld r1, [pc,#delta]` into a direct memory
reference when the literal address is loaded in the host -/
def inline_const (env : Env) (cmd : Insn) : Insn :=
  if cmd.itype = ARC_ld ∧ cmd.Op2.type = o_displ ∧ cmd.Op2.reg = PCL
      ∧ cmd.auxpref &&& (aux_a ||| aux_zmask) = 0 then
    let val_ea : Int := ((cmd.ea - cmd.ea % 4 : Nat) : Int) + cmd.Op2.addr
    if env.isEnabled val_ea then
      { cmd with
        Op2 := { cmd.Op2 with type := o_mem, addr := val_ea }
        auxpref := cmd.auxpref ||| aux_pcload }
    else cmd
  else cmd

/-- `ana`: the top-level entry point: legacy vs compact decode by the
process-wide mode, then the ld/st width fix and the two optional
normalizer passes; returns `cmd.size` -/
def ana (env : Env) (s : DState) : Nat × DState :=
  let (sz, s) := if env.is_a4 then anaOld s else anaCompact env s
  let s :=
    if sz ≠ 0 then
      let s := { s with cmd := fix_ldst s.cmd }
      let s := if env.arc_simplify then { s with cmd := simplify s.cmd } else s
      let s := if env.arc_inlineconst then { s with cmd := inline_const env s.cmd } else s
      s
    else s
  (s.cmd.size, s)

/-! ### Helper lemmas -/

theorem getLimm_of_got (s : DState) (h : s.got_limm = true) : getLimm s = (s.g_limm, s) := by
  unfold getLimm; simp [h]

theorem getLimm_pos_of_not_got (s : DState) (h : s.got_limm = false) :
    (getLimm s).2.pos = s.pos + 2 ∧ (getLimm s).2.got_limm = true
    ∧ (getLimm s).2.cmd.size = s.cmd.size + 4 := by
  unfold getLimm
  simp [h, uaNextWord]

/-- stream-read accounting between an input and an output decode state:
either nothing was read, or (the cache was cold and) exactly one 32-bit
long-immediate read happened -/
def ReadSpec (s s' : DState) : Prop :=
  (s'.pos = s.pos ∧ s'.cmd.size = s.cmd.size ∧ s'.got_limm = s.got_limm)
  ∨ (s.got_limm = false ∧ s'.got_limm = true
     ∧ s'.pos = s.pos + 2 ∧ s'.cmd.size = s.cmd.size + 4)

theorem ReadSpec.refl (s : DState) : ReadSpec s s := Or.inl ⟨rfl, rfl, rfl⟩

theorem ReadSpec.trans {s1 s2 s3 : DState} (h1 : ReadSpec s1 s2) (h2 : ReadSpec s2 s3) :
    ReadSpec s1 s3 := by
  rcases h1 with ⟨hp, hs, hg⟩ | ⟨hg0, hg1, hp, hs⟩ <;>
    rcases h2 with ⟨hp', hs', hg'⟩ | ⟨hg0', hg1', hp', hs'⟩
  · exact Or.inl ⟨hp' ▸ hp, hs' ▸ hs, hg' ▸ hg⟩
  · exact Or.inr ⟨hg ▸ hg0', hg1', by omega, by omega⟩
  · exact Or.inr ⟨hg0, hg' ▸ hg1, by omega, by omega⟩
  · rw [hg1] at hg0'; cases hg0'


theorem getLimm_readspec (s : DState) : ReadSpec s (getLimm s).2 := by
  by_cases h : s.got_limm
  · rw [getLimm_of_got s h]; exact ReadSpec.refl s
  · have h' : s.got_limm = false := by simpa using h
    obtain ⟨hp, hg, hs⟩ := getLimm_pos_of_not_got s h'
    exact Or.inr ⟨h', hg, hp, hs⟩

theorem opreg_readspec (env : Env) (x : OpT) (rg : Nat) (s : DState) :
    ReadSpec s (opreg env x rg s).2 := by
  unfold opreg
  split_ifs <;> first
    | exact ReadSpec.refl s
    | exact getLimm_readspec s

theorem opdisp_readspec (x : OpT) (rg : Nat) (d : Int) (s : DState) :
    ReadSpec s (opdisp x rg d s).2 := by
  unfold opdisp
  split_ifs <;> first
    | exact ReadSpec.refl s
    | exact getLimm_readspec s

set_option maxHeartbeats 2000000 in
theorem decode_operand_core_readspec (env : Env) (code : Nat) (x : OpT) (k : Nat) (s : DState) :
    ReadSpec s (((decode_operand_core env code x k s).getD (x, s)).2) := by
  unfold decode_operand_core
  simp only []
  by_cases h1 : k &&& 2147483647 = fA16
  case pos =>
    rw [if_pos h1]; simp only [Option.getD_some]; apply opreg_readspec
  rw [if_neg h1]
  by_cases h2 : k &&& 2147483647 = fB16
  case pos =>
    rw [if_pos h2]; simp only [Option.getD_some]; apply opreg_readspec
  rw [if_neg h2]
  by_cases h3 : k &&& 2147483647 = fC16
  case pos =>
    rw [if_pos h3]; simp only [Option.getD_some]; apply opreg_readspec
  rw [if_neg h3]
  by_cases h4 : k &&& 2147483647 = fA32
  case pos =>
    rw [if_pos h4]; simp only [Option.getD_some]; apply opreg_readspec
  rw [if_neg h4]
  by_cases h5 : k &&& 2147483647 = fB32
  case pos =>
    rw [if_pos h5]; simp only [Option.getD_some]; apply opreg_readspec
  rw [if_neg h5]
  by_cases h6 : k &&& 2147483647 = fC32
  case pos =>
    rw [if_pos h6]; simp only [Option.getD_some]; apply opreg_readspec
  rw [if_neg h6]
  by_cases h7 : k &&& 2147483647 = fH16
  case pos =>
    rw [if_pos h7]; simp only [Option.getD_some]; apply opreg_readspec
  rw [if_neg h7]
  by_cases h8 : k &&& 2147483647 = S25L ∨ k &&& 2147483647 = S21L ∨ k &&& 2147483647 = S25 ∨ k &&& 2147483647 = S21
  case pos =>
    rw [if_pos h8]; simp only [Option.getD_some]; exact ReadSpec.refl s
  rw [if_neg h8]
  by_cases h9 : k &&& 2147483647 = S9
  case pos =>
    rw [if_pos h9]; simp only [Option.getD_some]; exact ReadSpec.refl s
  rw [if_neg h9]
  by_cases h10 : k &&& 2147483647 = S7
  case pos =>
    rw [if_pos h10]; simp only [Option.getD_some]; exact ReadSpec.refl s
  rw [if_neg h10]
  by_cases h11 : k &&& 2147483647 = S8
  case pos =>
    rw [if_pos h11]; simp only [Option.getD_some]; exact ReadSpec.refl s
  rw [if_neg h11]
  by_cases h12 : k &&& 2147483647 = S10
  case pos =>
    rw [if_pos h12]; simp only [Option.getD_some]; exact ReadSpec.refl s
  rw [if_neg h12]
  by_cases h13 : k &&& 2147483647 = S13
  case pos =>
    rw [if_pos h13]; simp only [Option.getD_some]; exact ReadSpec.refl s
  rw [if_neg h13]
  by_cases h14 : k &&& 2147483647 = PCL_U10
  case pos =>
    rw [if_pos h14]; simp only [Option.getD_some]; apply opdisp_readspec
  rw [if_neg h14]
  by_cases h15 : k &&& 2147483647 = SP_U7
  case pos =>
    rw [if_pos h15]; simp only [Option.getD_some]; apply opdisp_readspec
  rw [if_neg h15]
  by_cases h16 : k &&& 2147483647 = U3
  case pos =>
    rw [if_pos h16]; simp only [Option.getD_some]; exact ReadSpec.refl s
  rw [if_neg h16]
  by_cases h17 : k &&& 2147483647 = U7
  case pos =>
    rw [if_pos h17]; simp only [Option.getD_some]; exact ReadSpec.refl s
  rw [if_neg h17]
  by_cases h18 : k &&& 2147483647 = U6
  case pos =>
    rw [if_pos h18]; simp only [Option.getD_some]; exact ReadSpec.refl s
  rw [if_neg h18]
  by_cases h19 : k &&& 2147483647 = U5 ∨ k &&& 2147483647 = U7L
  case pos =>
    rw [if_pos h19]; simp only [Option.getD_some]; exact ReadSpec.refl s
  rw [if_neg h19]
  by_cases h20 : k &&& 2147483647 = U8
  case pos =>
    rw [if_pos h20]; simp only [Option.getD_some]; exact ReadSpec.refl s
  rw [if_neg h20]
  by_cases h21 : k &&& 2147483647 = fB_U5 ∨ k &&& 2147483647 = fB_U6 ∨ k &&& 2147483647 = fB_U7
  case pos =>
    rw [if_pos h21]; simp only [Option.getD_some]; apply opdisp_readspec
  rw [if_neg h21]
  by_cases h22 : k &&& 2147483647 = fB_S9
  case pos =>
    rw [if_pos h22]; simp only [Option.getD_some]; apply opdisp_readspec
  rw [if_neg h22]
  by_cases h23 : k &&& 2147483647 = GENA
  case pos =>
    rw [if_pos h23]; simp only [Option.getD_some]; apply opreg_readspec
  rw [if_neg h23]
  by_cases h24 : k &&& 2147483647 = GENB
  case pos =>
    rw [if_pos h24]; simp only [Option.getD_some]; apply opreg_readspec
  rw [if_neg h24]
  by_cases h25 : k &&& 2147483647 = GENC ∨ k &&& 2147483647 = GENC_PCREL
  case pos =>
    rw [if_pos h25]
    repeat'
      first
        | exact ReadSpec.refl s
        | exact getLimm_readspec s
        | (simp only [Option.getD_some]
           first
             | exact ReadSpec.refl s
             | exact getLimm_readspec s
             | apply opreg_readspec)
        | split
  rw [if_neg h25]
  by_cases h26 : k &&& 2147483647 = fBC_IND
  case pos =>
    rw [if_pos h26]
    repeat'
      first
        | exact ReadSpec.refl s
        | exact getLimm_readspec s
        | (simp only [Option.getD_some]
           first
             | exact ReadSpec.refl s
             | exact getLimm_readspec s)
        | split
  rw [if_neg h26]
  by_cases h27 : k &&& 2147483647 = fBC16_IND
  case pos =>
    rw [if_pos h27]; simp only [Option.getD_some]; exact ReadSpec.refl s
  rw [if_neg h27]
  by_cases h28 : k &&& 2147483647 = O_ZERO
  case pos =>
    rw [if_pos h28]; simp only [Option.getD_some]; exact ReadSpec.refl s
  rw [if_neg h28]
  by_cases h29 : k &&& 2147483647 = R_SP
  case pos =>
    rw [if_pos h29]; simp only [Option.getD_some]; apply opreg_readspec
  rw [if_neg h29]
  by_cases h30 : k &&& 2147483647 = R_BLINK
  case pos =>
    rw [if_pos h30]; simp only [Option.getD_some]; apply opreg_readspec
  rw [if_neg h30]
  by_cases h31 : k &&& 2147483647 = R_R0
  case pos =>
    rw [if_pos h31]; simp only [Option.getD_some]; apply opreg_readspec
  rw [if_neg h31]
  by_cases h32 : k &&& 2147483647 = R_GP
  case pos =>
    rw [if_pos h32]; simp only [Option.getD_some]; apply opreg_readspec
  rw [if_neg h32]
  by_cases h33 : k &&& 2147483647 = GP_S9 ∨ k &&& 2147483647 = GP_S10 ∨ k &&& 2147483647 = GP_S11 ∨ k &&& 2147483647 = S11
  case pos =>
    rw [if_pos h33]
    repeat'
      first
        | exact ReadSpec.refl s
        | (simp only [Option.getD_some]
           first
             | exact ReadSpec.refl s
             | apply opdisp_readspec)
        | split
  rw [if_neg h33]
  simp only [Option.getD_none]
  exact ReadSpec.refl s

theorem decode_operand_readspec (env : Env) (code : Nat) (x : OpT) (k : Nat) (s : DState) :
    ReadSpec s (decode_operand env code x k s).2 := by
  unfold decode_operand
  by_cases h0 : k = 0
  · rw [if_pos h0]; exact ReadSpec.refl s
  rw [if_neg h0]
  have h := decode_operand_core_readspec env code x k s
  rcases hc : decode_operand_core env code x k s with _ | ⟨x', s'⟩
  · simp only [hc]; exact ReadSpec.refl s
  · rw [hc] at h
    simp only [Option.getD_some] at h
    simp only [hc]
    split_ifs <;> exact h

theorem ReadSpec.with_cmd {s s' : DState} (h : ReadSpec s s') {c : Insn}
    (hc : c.size = s'.cmd.size) : ReadSpec s { s' with cmd := c } := by
  rcases h with ⟨hp, hs, hg⟩ | ⟨hg0, hg1, hp, hs⟩
  · exact Or.inl ⟨hp, by simpa [hc] using hs, hg⟩
  · exact Or.inr ⟨hg0, hg1, hp, by simpa [hc] using hs⟩

theorem analyze_compact_readspec (env : Env) :
    ∀ (fuel code idx : Nat) (table : List AEntry) (s : DState),
      ReadSpec s (analyze_compact env fuel code idx table s).2
      ∧ ((analyze_compact env fuel code idx table s).1 = 0
         ∨ (analyze_compact env fuel code idx table s).1
           = (analyze_compact env fuel code idx table s).2.cmd.size) := by
  intro fuel
  induction fuel with
  | zero =>
    intro code idx table s
    exact ⟨ReadSpec.refl s, Or.inl rfl⟩
  | succ n ih =>
    intro code idx table s
    unfold analyze_compact
    rcases hE : table.getD idx default with ⟨mnem, aux, o1, o2, o3, sub⟩
    simp only []
    by_cases hsub : mnem &&& 0x80000000 ≠ 0
    · rw [if_pos hsub]
      exact ih _ _ _ _
    · rw [if_neg hsub]
      by_cases hz : mnem = 0
      · rw [if_pos hz]
        exact ⟨ReadSpec.refl s, Or.inl rfl⟩
      · rw [if_neg hz]
        refine ⟨?_, Or.inr rfl⟩
        apply ReadSpec.with_cmd _ rfl
        refine ReadSpec.trans ?_ (decode_operand_readspec _ _ _ _ _)
        apply ReadSpec.with_cmd _ rfl
        refine ReadSpec.trans ?_ (decode_operand_readspec _ _ _ _ _)
        apply ReadSpec.with_cmd _ rfl
        refine ReadSpec.trans ?_ (decode_operand_readspec _ _ _ _ _)
        apply ReadSpec.with_cmd _ rfl
        apply ReadSpec.with_cmd _ rfl
        exact ReadSpec.refl s

theorem analyze_size (env : Env) (fuel code idx : Nat) (table : List AEntry) (s : DState)
    (hg : s.got_limm = false) (hr : (analyze_compact env fuel code idx table s).1 ≠ 0) :
    (analyze_compact env fuel code idx table s).1
      = s.cmd.size + (if (analyze_compact env fuel code idx table s).2.got_limm then 4 else 0) := by
  obtain ⟨hR, hv⟩ := analyze_compact_readspec env fuel code idx table s
  rcases hv with h0 | hsz
  · exact absurd h0 hr
  rcases hR with ⟨hp, hs, hgg⟩ | ⟨hg0, hg1, hp, hs⟩
  · rw [hsz, hs, hgg, hg]; simp
  · rw [hsz, hs, hg1]; simp

/-! ### Claim theorems -/

/-- C1 (amended): for a fresh compact-mode decode call that succeeds,
the byte count returned is 2 when the first word's major opcode (top 5
bits) is ≥ 0xC and 4 when it is < 0xC, plus 4 more exactly when the
decode fetched the long-immediate word (the final state's `got_limm`);
a long-immediate fetch is possible in both widths (e.g. through the
`fH16` operand field of a 16-bit instruction), and an operand slot that
merely carries register code 62 without fetching (a written first
operand) adds nothing. -/
theorem C1_compact_consumed_size (env : Env) (s : DState) (hsz : s.cmd.size = 0)
    (hr : (anaCompact env s).1 ≠ 0) :
    (anaCompact env s).1 =
      (if ((s.stream s.pos % 65536) >>> 11) &&& 0x1F < 0xC then 4 else 2)
      + (if (anaCompact env s).2.got_limm then 4 else 0) := by
  unfold anaCompact at hr ⊢
  by_cases ha : s.cmd.ea % 2 ≠ 0
  · rw [if_pos ha] at hr; exact absurd rfl hr
  rw [if_neg ha] at hr ⊢
  simp only [uaNextWord] at hr ⊢
  by_cases hi : ((s.stream s.pos % 65536) >>> 11) &&& 0x1F < 0xC
  · rw [if_pos hi] at hr ⊢
    rw [if_pos hi]
    refine Eq.trans (analyze_size env 8 _ _ arcompact_major _ rfl hr) ?_
    have : s.cmd.size + 2 + 2 = 4 := by omega
    rw [this]
  · rw [if_neg hi] at hr ⊢
    rw [if_neg hi]
    refine Eq.trans (analyze_size env 8 _ _ arcompact_major _ rfl hr) ?_
    have : s.cmd.size + 2 = 2 := by omega
    rw [this]

/-- C1 counterexample: the claim "if the major opcode is ≥ 0xC the
decode consumes exactly 2 bytes" fails on the 16-bit word 0x70CF
(maj = 0xE, `mov b,h` with h-field = 62): the h operand triggers a
long-immediate fetch and the successful decode consumes 6 bytes. -/
theorem C1_counterexample :
    (anaCompact {} { cmd := initCmd 0, stream := fun i => [0x70CF, 0x1234, 0x5678].getD i 0 }).1 = 6
    ∧ (((0x70CF : Nat) >>> 11) &&& 0x1F) = 0xE
    ∧ ¬ ((0xE : Nat) < 0xC)
    ∧ (6 : Nat) ≠ 2 := by
  refine ⟨by decide, by decide, by decide, by decide⟩

theorem C1_compact_consumed_size_witness :
    (anaCompact {} { cmd := initCmd 0, stream := fun i => [0x70CF, 0x1234, 0x5678].getD i 0 }).1 =
      (if ((((fun i => [0x70CF, 0x1234, 0x5678].getD i 0) : Nat → Nat) 0 % 65536) >>> 11) &&& 0x1F < 0xC
       then 4 else 2)
      + (if (anaCompact {}
              { cmd := initCmd 0, stream := fun i => [0x70CF, 0x1234, 0x5678].getD i 0 }).2.got_limm
         then 4 else 0) :=
  C1_compact_consumed_size {}
    { cmd := initCmd 0, stream := fun i => [0x70CF, 0x1234, 0x5678].getD i 0 } rfl (by decide)

/-- C3: a decode call at an address violating the encoding's minimum
alignment (low 2 bits nonzero in legacy mode, low bit nonzero in
compact mode) returns the zero-length sentinel and returns the state
untouched: no stream read, no partial decoded state; the top-level
`ana` then skips every post-decode pass and reports the untouched
`cmd.size`. -/
theorem C3_alignment_failure (env : Env) (s : DState) :
    (s.cmd.ea % 4 ≠ 0 → anaOld s = (0, s))
    ∧ (s.cmd.ea % 2 ≠ 0 → anaCompact env s = (0, s))
    ∧ (env.is_a4 = true → s.cmd.ea % 4 ≠ 0 → ana env s = (s.cmd.size, s))
    ∧ (env.is_a4 = false → s.cmd.ea % 2 ≠ 0 → ana env s = (s.cmd.size, s)) := by
  refine ⟨?_, ?_, ?_, ?_⟩
  · intro h; unfold anaOld; rw [if_pos h]
  · intro h; unfold anaCompact; rw [if_pos h]
  · intro hm h
    have h1 : anaOld s = (0, s) := by unfold anaOld; rw [if_pos h]
    simp [ana, hm, h1]
  · intro hm h
    have h1 : anaCompact env s = (0, s) := by unfold anaCompact; rw [if_pos h]
    simp [ana, hm, h1]

theorem C3_alignment_failure_witness :
    anaOld { cmd := initCmd 2, stream := fun _ => 0 } = (0, { cmd := initCmd 2, stream := fun _ => 0 })
    ∧ anaCompact {} { cmd := initCmd 1, stream := fun _ => 0 }
        = (0, { cmd := initCmd 1, stream := fun _ => 0 }) :=
  ⟨(C3_alignment_failure {} { cmd := initCmd 2, stream := fun _ => 0 }).1 (by decide),
   (C3_alignment_failure {} { cmd := initCmd 1, stream := fun _ => 0 }).2.1 (by decide)⟩

/-- C10: the PC-relative literal-inlining pass is a no-op unless all of
its preconditions hold (load opcode, second operand a PCL-relative
displacement, no addressing-mode / non-32-bit-width attribute bits, and
the literal address readable in the host); when it fires it changes
only the second operand's type and address and ORs in only the
`aux_pcload` marker bit. -/
theorem C10_inline_const_frame (env : Env) (cmd : Insn) :
    ((cmd.itype ≠ ARC_ld ∨ cmd.Op2.type ≠ o_displ ∨ cmd.Op2.reg ≠ PCL
      ∨ cmd.auxpref &&& (aux_a ||| aux_zmask) ≠ 0
      ∨ env.isEnabled (((cmd.ea - cmd.ea % 4 : Nat) : Int) + cmd.Op2.addr) = false)
      → inline_const env cmd = cmd)
    ∧ (cmd.itype = ARC_ld → cmd.Op2.type = o_displ → cmd.Op2.reg = PCL
      → cmd.auxpref &&& (aux_a ||| aux_zmask) = 0
      → env.isEnabled (((cmd.ea - cmd.ea % 4 : Nat) : Int) + cmd.Op2.addr) = true
      → inline_const env cmd =
          { cmd with
            Op2 := { cmd.Op2 with
              type := o_mem
              addr := ((cmd.ea - cmd.ea % 4 : Nat) : Int) + cmd.Op2.addr }
            auxpref := cmd.auxpref ||| aux_pcload }) := by
  constructor
  · intro h
    unfold inline_const
    by_cases h1 : cmd.itype = ARC_ld ∧ cmd.Op2.type = o_displ ∧ cmd.Op2.reg = PCL
        ∧ cmd.auxpref &&& (aux_a ||| aux_zmask) = 0
    · rw [if_pos h1]
      rcases h with h | h | h | h | h
      · exact absurd h1.1 h
      · exact absurd h1.2.1 h
      · exact absurd h1.2.2.1 h
      · exact absurd h1.2.2.2 h
      · simp [h]
    · rw [if_neg h1]
  · intro h1 h2 h3 h4 h5
    unfold inline_const
    rw [if_pos ⟨h1, h2, h3, h4⟩]
    simp [h5]

theorem C10_inline_const_frame_witness :
    inline_const {} { itype := ARC_mov } = { itype := ARC_mov } :=
  (C10_inline_const_frame {} { itype := ARC_mov }).1 (Or.inl (by decide))

/-- C8: a compact register operand whose extracted register number is
the long-immediate sentinel 62 becomes an immediate: if it is the
instruction's first slot (`n = 0`) and the opcode's canonical behavior
writes its first operand (`CF_CHG1`), no fetch is performed and the
value is forced to 0; otherwise the value is sourced from the (cached)
long-immediate fetch, which reads two stream words only when the cache
is cold. -/
theorem C8_opreg_limm_dest (env : Env) (x : OpT) (rg : Nat) (s : DState) (h : rg = LIMM) :
    ((x.n = 0 ∧ env.cf_chg1 s.cmd.itype = true) →
      opreg env x rg s = ({ x with type := o_imm, value := 0, dtyp := dt_dword }, s))
    ∧ (¬(x.n = 0 ∧ env.cf_chg1 s.cmd.itype = true) →
      opreg env x rg s =
        ({ x with type := o_imm, value := ((getLimm s).1 : Int), dtyp := dt_dword }, (getLimm s).2)
      ∧ (s.got_limm = true → (getLimm s).2 = s ∧ (getLimm s).1 = s.g_limm)
      ∧ (s.got_limm = false → (getLimm s).2.pos = s.pos + 2)) := by
  subst h
  constructor
  · intro hc
    unfold opreg
    rw [if_neg (by simp), if_pos hc]
  · intro hc
    refine ⟨?_, ?_, ?_⟩
    · unfold opreg
      rw [if_neg (by simp), if_neg hc]
    · intro hg
      rw [getLimm_of_got s hg]
      exact ⟨rfl, rfl⟩
    · intro hg
      exact (getLimm_pos_of_not_got s hg).1

theorem C8_opreg_limm_dest_witness :
    (opreg { cf_chg1 := fun _ => true } { n := 0 } 62
        { cmd := initCmd 0, stream := fun _ => 0 } =
      ({ n := 0, type := o_imm, value := 0, dtyp := dt_dword }, { cmd := initCmd 0, stream := fun _ => 0 }))
    ∧ (opreg { cf_chg1 := fun _ => true } { n := 1 } 62
        { cmd := initCmd 0, stream := fun _ => 17 }).1.value = ((17 <<< 16) ||| 17 : Nat) := by
  constructor
  · exact (C8_opreg_limm_dest { cf_chg1 := fun _ => true } { n := 0 } 62
      { cmd := initCmd 0, stream := fun _ => 0 } rfl).1 (by decide)
  · have h := (C8_opreg_limm_dest { cf_chg1 := fun _ => true } { n := 1 } 62
      { cmd := initCmd 0, stream := fun _ => 17 } rfl).2 (by decide)
    rw [h.1]
    decide

theorem clearBits_and_self (v m : Nat) : clearBits v m &&& m = 0 := by
  apply Nat.eq_of_testBit_eq
  intro i
  simp only [clearBits, Nat.testBit_xor, Nat.testBit_and, Nat.zero_testBit]
  cases hv : v.testBit i <;> cases hm : m.testBit i <;> simp

theorem simplify_fix_of_itype (c : Insn)
    (h : c.itype = ARC_cmp ∨ c.itype = ARC_add) : simplify c = c := by
  unfold simplify
  rcases h with h | h <;>
    rw [h] <;>
    simp [ARC_cmp, ARC_add, ARC_st, ARC_ld, ARC_add1, ARC_add2, ARC_add3,
      ARC_sub1, ARC_sub2, ARC_sub3, ARC_sub]

theorem simplify_two_step (c : Insn) :
    simplify (simplify c) = simplify c ∨ (simplify (simplify c)).itype = ARC_cmp := by
  by_cases hst : c.itype = ARC_st ∨ c.itype = ARC_ld
  · left
    by_cases h2 : c.Op2.type = o_displ ∧ (c.auxpref &&& aux_amask) = aux_as ∧ c.Op2.membase = 0
    · obtain ⟨h2a, h2b, h2c⟩ := h2
      by_cases hw : (c.auxpref &&& aux_zmask) = aux_w
      · rcases hst with h1 | h1 <;>
          simp [simplify, h1, h2a, h2b, h2c, hw, clearBits_and_self, ARC_st, ARC_ld,
            show ((0 : Nat) = aux_as) ↔ False by simp [aux_as]]
      · by_cases hl : (c.auxpref &&& aux_zmask) = aux_l
        · rcases hst with h1 | h1 <;>
            simp [simplify, h1, h2a, h2b, h2c, hw, hl, clearBits_and_self, ARC_st, ARC_ld,
              show ((0 : Nat) = aux_as) ↔ False by simp [aux_as],
              show (aux_l = aux_w) ↔ False by simp [aux_l, aux_w]]
        · rcases hst with h1 | h1 <;>
            simp [simplify, h1, h2a, h2b, h2c, hw, hl, ARC_st, ARC_ld]
    · rcases hst with h1 | h1 <;>
        simp [simplify, h1, h2, ARC_st, ARC_ld]
  · by_cases haddn : c.itype = ARC_add1 ∨ c.itype = ARC_add2 ∨ c.itype = ARC_add3
        ∨ c.itype = ARC_sub1 ∨ c.itype = ARC_sub2 ∨ c.itype = ARC_sub3
    · by_cases hOp3 : c.Op3.type = o_imm
      · rcases haddn with h1 | h1 | h1 | h1 | h1 | h1
      
        · left
          simp [simplify, h1, hOp3, ARC_st, ARC_ld, ARC_add1, ARC_add2, ARC_add3,
            ARC_sub1, ARC_sub2, ARC_sub3, ARC_add, ARC_sub, ARC_cmp, o_imm, o_displ]
        · left
          simp [simplify, h1, hOp3, ARC_st, ARC_ld, ARC_add1, ARC_add2, ARC_add3,
            ARC_sub1, ARC_sub2, ARC_sub3, ARC_add, ARC_sub, ARC_cmp, o_imm, o_displ]
        · left
          simp [simplify, h1, hOp3, ARC_st, ARC_ld, ARC_add1, ARC_add2, ARC_add3,
            ARC_sub1, ARC_sub2, ARC_sub3, ARC_add, ARC_sub, ARC_cmp, o_imm, o_displ]
        all_goals
          by_cases hfire : c.Op1.type = o_imm ∧ c.Op1.value = 0 ∧ (c.auxpref &&& aux_f) ≠ 0
        · right
          obtain ⟨hfa, hfb, hfc⟩ := hfire
          simp [simplify, h1, hOp3, hfa, hfb, hfc, ARC_st, ARC_ld, ARC_add1, ARC_add2,
            ARC_add3, ARC_sub1, ARC_sub2, ARC_sub3, ARC_add, ARC_sub, ARC_cmp, o_imm]
        · left
          simp only [o_imm] at hfire
          simp [simplify, h1, hOp3, ARC_st, ARC_ld, ARC_add1, ARC_add2, ARC_add3,
            ARC_sub1, ARC_sub2, ARC_sub3, ARC_add, ARC_sub, ARC_cmp, o_imm]
          try tauto
        · right
          obtain ⟨hfa, hfb, hfc⟩ := hfire
          simp [simplify, h1, hOp3, hfa, hfb, hfc, ARC_st, ARC_ld, ARC_add1, ARC_add2,
            ARC_add3, ARC_sub1, ARC_sub2, ARC_sub3, ARC_add, ARC_sub, ARC_cmp, o_imm]
        · left
          simp only [o_imm] at hfire
          simp [simplify, h1, hOp3, ARC_st, ARC_ld, ARC_add1, ARC_add2, ARC_add3,
            ARC_sub1, ARC_sub2, ARC_sub3, ARC_add, ARC_sub, ARC_cmp, o_imm]
          try tauto
        · right
          obtain ⟨hfa, hfb, hfc⟩ := hfire
          simp [simplify, h1, hOp3, hfa, hfb, hfc, ARC_st, ARC_ld, ARC_add1, ARC_add2,
            ARC_add3, ARC_sub1, ARC_sub2, ARC_sub3, ARC_add, ARC_sub, ARC_cmp, o_imm]
        · left
          simp only [o_imm] at hfire
          simp [simplify, h1, hOp3, ARC_st, ARC_ld, ARC_add1, ARC_add2, ARC_add3,
            ARC_sub1, ARC_sub2, ARC_sub3, ARC_add, ARC_sub, ARC_cmp, o_imm]
          try tauto
      · left
        rcases haddn with h1 | h1 | h1 | h1 | h1 | h1 <;>
          simp [simplify, h1, hOp3, ARC_st, ARC_ld, ARC_add1, ARC_add2, ARC_add3,
            ARC_sub1, ARC_sub2, ARC_sub3, ARC_sub]
    · by_cases hsub : c.itype = ARC_sub
      · by_cases hfire : c.Op1.type = o_imm ∧ c.Op1.value = 0 ∧ (c.auxpref &&& aux_f) ≠ 0
        · left
          obtain ⟨hfa, hfb, hfc⟩ := hfire
          simp [simplify, hsub, hfa, hfb, hfc, ARC_st, ARC_ld, ARC_add1, ARC_add2,
            ARC_add3, ARC_sub1, ARC_sub2, ARC_sub3, ARC_sub, ARC_cmp]
        · left
          simp only [o_imm] at hfire
          simp [simplify, hsub, hfire, ARC_st, ARC_ld, ARC_add1, ARC_add2, ARC_add3,
            ARC_sub1, ARC_sub2, ARC_sub3, ARC_sub, o_imm]
          try tauto
      · left
        simp [simplify, hst, haddn, hsub]

/-- C5 counterexample: the canonicalization pass is NOT idempotent.
Decoding the 32-bit compact word 0x21178FBE (`sub1.f 0, r1, limm`:
GEN format with F set, A-field = C-field = 62, so the first operand is
the forced-zero immediate) yields an instruction on which one
`simplify` fires the sub1-fold (to `sub`), and a second application
then fires the `sub.f 0,a,b → cmp` rewrite: the second application is
not a no-op. -/
theorem C5_counterexample :
    simplify (simplify (anaCompact { cf_chg1 := fun _ => true }
        { cmd := initCmd 0, stream := fun i => [0x2117, 0x8FBE, 1, 0].getD i 0 }).2.cmd)
    ≠ simplify (anaCompact { cf_chg1 := fun _ => true }
        { cmd := initCmd 0, stream := fun i => [0x2117, 0x8FBE, 1, 0].getD i 0 }).2.cmd := by
  decide

/-- C5 (amended): the canonicalization pass reaches a fixpoint after at
most two applications: every trigger pattern except one is consumed on
first application, the exception being the addN/subN immediate fold,
whose result can expose the `sub.f 0,a,b → cmp` rewrite to exactly one
further application; hence applying the pass three times always equals
applying it twice (and applying twice equals applying once whenever the
first application was not a subN fold). -/
theorem C5_simplify_fixpoint (c : Insn) :
    simplify (simplify (simplify c)) = simplify (simplify c) := by
  rcases simplify_two_step c with h | h
  · rw [h]; exact h
  · exact simplify_fix_of_itype _ (Or.inl h)

theorem getLimm_g_limm (s : DState) (h : s.got_limm = false) :
    (getLimm s).2.g_limm = (getLimm s).1 := by
  unfold getLimm
  simp [h, uaNextWord]

/-- C2: the long-immediate word is fetched from the stream at most once
per instruction decode: (a) after one cold fetch, a second `get_limm`
returns the identical cached value without touching the state, and the
cold fetch advances the cursor by exactly one 32-bit read; (b) an
aligned compact decode call behaves identically whatever the incoming
`got_limm` flag was, because `ana_compact` clears the cache right after
reading the first word; (c) end-to-end, the 32-bit encoding 0x26047F80
(`and r0, limm, limm` — both source operand slots carry register code
62) decodes, for every long-immediate payload `w2, w3`, with identical
immediate values in both source operands, total size 8 bytes (one extra
32-bit read, not two), and a final cursor of 4 words. -/
theorem C2_limm_single_fetch (env : Env) (w2 w3 : Nat) :
    (∀ s : DState, s.got_limm = false →
      (getLimm (getLimm s).2).1 = (getLimm s).1
      ∧ (getLimm (getLimm s).2).2 = (getLimm s).2
      ∧ (getLimm s).2.pos = s.pos + 2)
    ∧ (∀ s : DState, ∀ bl : Bool, s.cmd.ea % 2 = 0 →
        anaCompact env { s with got_limm := bl } = anaCompact env { s with got_limm := false })
    ∧ ((anaCompact env
          { cmd := initCmd 0, stream := fun i => [0x2604, 0x7F80, w2, w3].getD i 0 }).1 = 8
      ∧ (anaCompact env
          { cmd := initCmd 0, stream := fun i => [0x2604, 0x7F80, w2, w3].getD i 0 }).2.cmd.Op2.value
        = (anaCompact env
          { cmd := initCmd 0, stream := fun i => [0x2604, 0x7F80, w2, w3].getD i 0 }).2.cmd.Op3.value
      ∧ (anaCompact env
          { cmd := initCmd 0, stream := fun i => [0x2604, 0x7F80, w2, w3].getD i 0 }).2.cmd.Op2.value
        = ((((w2 % 65536) <<< 16) ||| (w3 % 65536) : Nat) : Int)
      ∧ (anaCompact env
          { cmd := initCmd 0, stream := fun i => [0x2604, 0x7F80, w2, w3].getD i 0 }).2.pos = 4) := by
  have key : anaCompact env
        { cmd := initCmd 0, stream := fun i => [0x2604, 0x7F80, w2, w3].getD i 0 }
      = analyze_compact env 8 0x26047F80 4 arcompact_major
          { cmd := { ea := 0, itype := 0, auxpref := 0, size := 4, Op1 := { n := 0 }, Op2 := { n := 1 }, Op3 := { n := 2 } }, pos := 2, stream := fun i => [9732, 32640, w2, w3].getD i 0, got_limm := false, g_limm := 0 } := by
    unfold anaCompact
    rw [if_neg (show ¬(({ cmd := initCmd 0, pos := 0, stream := fun i => [9732, 32640, w2, w3].getD i 0, got_limm := false, g_limm := 0 } : DState).cmd.ea % 2 ≠ 0) by simp [initCmd])]
    simp only [uaNextWord]
    norm_num [initCmd]
    rw [show ((9732 : Nat) >>> 11 &&& 31) = 4 by decide]
    rw [if_pos (show (4 : Nat) < 12 by decide)]
    rw [show ((9732 : Nat) <<< 16 ||| 32640) = 0x26047F80 by decide]
  refine ⟨?_, ?_, ?_, ?_, ?_, ?_⟩
  · intro s hs
    obtain ⟨hp, hg, _⟩ := getLimm_pos_of_not_got s hs
    rw [getLimm_of_got _ hg]
    exact ⟨getLimm_g_limm s hs, rfl, hp⟩
  · intro s bl ha
    unfold anaCompact
    rw [if_neg (by simp [ha]), if_neg (by simp [ha])]
    rfl
  · rw [key]; rfl
  · rw [key]; rfl
  · rw [key]; rfl
  · rw [key]; rfl

theorem C2_limm_single_fetch_witness :
    ((getLimm (getLimm { cmd := initCmd 0, stream := fun _ => 3 : DState }).2).1
      = (getLimm { cmd := initCmd 0, stream := fun _ => 3 : DState }).1)
    ∧ (anaCompact {}
        { cmd := initCmd 0, stream := fun i => [0x2604, 0x7F80, 0xAAAA, 0xBBBB].getD i 0 }).1 = 8 :=
  ⟨((C2_limm_single_fetch {} 0xAAAA 0xBBBB).1
      { cmd := initCmd 0, stream := fun _ => 3 } rfl).1,
   (C2_limm_single_fetch {} 0xAAAA 0xBBBB).2.2.1⟩

/-! ### Stage lemmas for the legacy-decoder claims: each step of
`ana_old` is reduced on an abstract state so the claim proofs compose
small rewrites instead of normalizing the whole decoder at once -/

/-- `ana_old` on a fresh aligned state whose word is of major class
3: read the 32-bit word, set the operand widths, hand over to
`doRegisterInstruction` -/
theorem anaOld_class3 (f : Nat → Nat)
    (hieq : ((f 0 % 65536 ||| (f 1 % 65536) <<< 16) >>> 27) &&& 31 = 3) :
    anaOld { cmd := initCmd 0, stream := f }
    = ((doRegisterInstruction (f 0 % 65536 ||| (f 1 % 65536) <<< 16)
          { cmd :=
              { ea := 0
                itype := 0
                auxpref := 0
                size := 4
                Op1 := { n := 0, type := 0, reg := 0, secreg := 0, value := 0,
                         addr := 0, dtyp := dt_dword, membase := 0, offb := 0 }
                Op2 := { n := 1, type := 0, reg := 0, secreg := 0, value := 0,
                         addr := 0, dtyp := dt_dword, membase := 0, offb := 0 }
                Op3 := { n := 2, type := 0, reg := 0, secreg := 0, value := 0,
                         addr := 0, dtyp := dt_dword, membase := 0, offb := 0 } }
            pos := 2
            stream := f
            got_limm := false
            g_limm := 0 }).cmd.size,
       doRegisterInstruction (f 0 % 65536 ||| (f 1 % 65536) <<< 16)
         { cmd :=
             { ea := 0
               itype := 0
               auxpref := 0
               size := 4
               Op1 := { n := 0, type := 0, reg := 0, secreg := 0, value := 0,
                        addr := 0, dtyp := dt_dword, membase := 0, offb := 0 }
               Op2 := { n := 1, type := 0, reg := 0, secreg := 0, value := 0,
                        addr := 0, dtyp := dt_dword, membase := 0, offb := 0 }
               Op3 := { n := 2, type := 0, reg := 0, secreg := 0, value := 0,
                        addr := 0, dtyp := dt_dword, membase := 0, offb := 0 } }
           pos := 2
           stream := f
           got_limm := false
           g_limm := 0 }) := by
  unfold anaOld
  rw [if_neg (by simp [initCmd])]
  simp only [uaNextLong, uaNextWord]
  simp [initCmd]
  simp only [hieq]
  simp

/-- `ana_old` on a fresh aligned state whose word is of major class
8: read the 32-bit word, set the operand widths, hand over to
`doRegisterInstruction` -/
theorem anaOld_class8 (f : Nat → Nat)
    (hieq : ((f 0 % 65536 ||| (f 1 % 65536) <<< 16) >>> 27) &&& 31 = 8) :
    anaOld { cmd := initCmd 0, stream := f }
    = ((doRegisterInstruction (f 0 % 65536 ||| (f 1 % 65536) <<< 16)
          { cmd :=
              { ea := 0
                itype := 0
                auxpref := 0
                size := 4
                Op1 := { n := 0, type := 0, reg := 0, secreg := 0, value := 0,
                         addr := 0, dtyp := dt_dword, membase := 0, offb := 0 }
                Op2 := { n := 1, type := 0, reg := 0, secreg := 0, value := 0,
                         addr := 0, dtyp := dt_dword, membase := 0, offb := 0 }
                Op3 := { n := 2, type := 0, reg := 0, secreg := 0, value := 0,
                         addr := 0, dtyp := dt_dword, membase := 0, offb := 0 } }
            pos := 2
            stream := f
            got_limm := false
            g_limm := 0 }).cmd.size,
       doRegisterInstruction (f 0 % 65536 ||| (f 1 % 65536) <<< 16)
         { cmd :=
             { ea := 0
               itype := 0
               auxpref := 0
               size := 4
               Op1 := { n := 0, type := 0, reg := 0, secreg := 0, value := 0,
                        addr := 0, dtyp := dt_dword, membase := 0, offb := 0 }
               Op2 := { n := 1, type := 0, reg := 0, secreg := 0, value := 0,
                        addr := 0, dtyp := dt_dword, membase := 0, offb := 0 }
               Op3 := { n := 2, type := 0, reg := 0, secreg := 0, value := 0,
                        addr := 0, dtyp := dt_dword, membase := 0, offb := 0 } }
           pos := 2
           stream := f
           got_limm := false
           g_limm := 0 }) := by
  unfold anaOld
  rw [if_neg (by simp [initCmd])]
  simp only [uaNextLong, uaNextWord]
  simp [initCmd]
  simp only [hieq]
  simp

/-- `ana_old` on a fresh aligned state whose word is of major class
12: read the 32-bit word, set the operand widths, hand over to
`doRegisterInstruction` -/
theorem anaOld_class12 (f : Nat → Nat)
    (hieq : ((f 0 % 65536 ||| (f 1 % 65536) <<< 16) >>> 27) &&& 31 = 12) :
    anaOld { cmd := initCmd 0, stream := f }
    = ((doRegisterInstruction (f 0 % 65536 ||| (f 1 % 65536) <<< 16)
          { cmd :=
              { ea := 0
                itype := 0
                auxpref := 0
                size := 4
                Op1 := { n := 0, type := 0, reg := 0, secreg := 0, value := 0,
                         addr := 0, dtyp := dt_dword, membase := 0, offb := 0 }
                Op2 := { n := 1, type := 0, reg := 0, secreg := 0, value := 0,
                         addr := 0, dtyp := dt_dword, membase := 0, offb := 0 }
                Op3 := { n := 2, type := 0, reg := 0, secreg := 0, value := 0,
                         addr := 0, dtyp := dt_dword, membase := 0, offb := 0 } }
            pos := 2
            stream := f
            got_limm := false
            g_limm := 0 }).cmd.size,
       doRegisterInstruction (f 0 % 65536 ||| (f 1 % 65536) <<< 16)
         { cmd :=
             { ea := 0
               itype := 0
               auxpref := 0
               size := 4
               Op1 := { n := 0, type := 0, reg := 0, secreg := 0, value := 0,
                        addr := 0, dtyp := dt_dword, membase := 0, offb := 0 }
               Op2 := { n := 1, type := 0, reg := 0, secreg := 0, value := 0,
                        addr := 0, dtyp := dt_dword, membase := 0, offb := 0 }
               Op3 := { n := 2, type := 0, reg := 0, secreg := 0, value := 0,
                        addr := 0, dtyp := dt_dword, membase := 0, offb := 0 } }
           pos := 2
           stream := f
           got_limm := false
           g_limm := 0 }) := by
  unfold anaOld
  rw [if_neg (by simp [initCmd])]
  simp only [uaNextLong, uaNextWord]
  simp [initCmd]
  simp only [hieq]
  simp

/-- `fix_ldst` only changes loads and stores -/
theorem fix_ldst_eq_self (c : Insn) (h1 : c.itype ≠ ARC_ld) (h2 : c.itype ≠ ARC_st) :
    fix_ldst c = c := by
  unfold fix_ldst
  rw [if_neg (by tauto)]

/-- `simplify` only changes ld/st, addN/subN and sub opcodes -/
theorem simplify_eq_self (c : Insn)
    (h1 : c.itype ≠ ARC_st) (h2 : c.itype ≠ ARC_ld)
    (h3 : c.itype ≠ ARC_add1) (h4 : c.itype ≠ ARC_add2) (h5 : c.itype ≠ ARC_add3)
    (h6 : c.itype ≠ ARC_sub1) (h7 : c.itype ≠ ARC_sub2) (h8 : c.itype ≠ ARC_sub3)
    (h9 : c.itype ≠ ARC_sub) : simplify c = c := by
  unfold simplify
  rw [if_neg (by tauto), if_neg (by tauto), if_neg (by tauto)]

/-- `inline_const` only changes loads -/
theorem inline_const_eq_self (env : Env) (c : Insn) (h : c.itype ≠ ARC_ld) :
    inline_const env c = c := by
  unfold inline_const
  rw [if_neg (by tauto)]

/-- `ana` around a known legacy/compact decode result whose opcode is
one of the fold outputs (mov or lsl): the width fix and both optional
normalizer passes are no-ops -/
theorem ana_eq_of_decode (env : Env) (s0 R : DState) (n : Nat)
    (hA4 : env.is_a4 = true)
    (hdec : anaOld s0 = (n, R))
    (hn : n ≠ 0)
    (hity : R.cmd.itype = ARC_mov ∨ R.cmd.itype = ARC_lsl) :
    ana env s0 = (R.cmd.size, R) := by
  have h1 : R.cmd.itype ≠ ARC_ld := by rcases hity with h | h <;> rw [h] <;> decide
  have h2 : R.cmd.itype ≠ ARC_st := by rcases hity with h | h <;> rw [h] <;> decide
  have h3 : R.cmd.itype ≠ ARC_add1 := by rcases hity with h | h <;> rw [h] <;> decide
  have h4 : R.cmd.itype ≠ ARC_add2 := by rcases hity with h | h <;> rw [h] <;> decide
  have h5 : R.cmd.itype ≠ ARC_add3 := by rcases hity with h | h <;> rw [h] <;> decide
  have h6 : R.cmd.itype ≠ ARC_sub1 := by rcases hity with h | h <;> rw [h] <;> decide
  have h7 : R.cmd.itype ≠ ARC_sub2 := by rcases hity with h | h <;> rw [h] <;> decide
  have h8 : R.cmd.itype ≠ ARC_sub3 := by rcases hity with h | h <;> rw [h] <;> decide
  have h9 : R.cmd.itype ≠ ARC_sub := by rcases hity with h | h <;> rw [h] <;> decide
  unfold ana
  rw [hA4, if_pos rfl, hdec]
  simp only []
  rw [if_pos hn]
  rw [fix_ldst_eq_self R.cmd h1 h2]
  rw [show ({ R with cmd := R.cmd } : DState) = R from rfl]
  rw [simplify_eq_self R.cmd h2 h1 h3 h4 h5 h6 h7 h8 h9]
  rw [show ({ R with cmd := R.cmd } : DState) = R from rfl]
  rw [ite_self]
  rw [inline_const_eq_self env R.cmd h1]
  rw [show ({ R with cmd := R.cmd } : DState) = R from rfl]
  rw [ite_self]

/-- `doRegisterInstruction` on a class-3 word with sub-opcode 0x3F and
an undefined immediate: the early return leaves only `auxpref` set -/
theorem doReg_c3f (code : Nat) (s : DState) (d0 : Nat)
    (hi : (code >>> 27) &&& 31 = 3)
    (hc : (code >>> 9) &&& 63 = 0x3F)
    (hd : code &&& 0x1FF = d0)
    (hd0 : d0 ≠ 0) (hd1 : d0 ≠ 1) (hd2 : d0 ≠ 2) :
    doRegisterInstruction code s = { s with cmd := { s.cmd with auxpref := d0 } } := by
  have hdlt : d0 < 512 := by
    rw [← hd]; exact Nat.lt_succ_of_le Nat.and_le_right
  unfold doRegisterInstruction
  simp only [hi, hc, hd]
  simp
  by_cases hbig : 256 ≤ d0
  · rw [if_pos hbig,
        if_neg (show ¬((d0 : Int) - 512 = 0) by omega),
        if_neg (show ¬((d0 : Int) - 512 = 1) by omega),
        if_neg (show ¬((d0 : Int) - 512 = 2) by omega)]
  · rw [if_neg hbig,
        if_neg (show ¬((d0 : Int) = 0) by omega),
        if_neg (show ¬((d0 : Int) = 1) by omega),
        if_neg (show ¬((d0 : Int) = 2) by omega)]

/-- `doRegisterInstruction` on an AND-class word whose source fields
are the same register: the inline and→mov fold, third operand left
untouched, for an arbitrary incoming state -/
theorem doReg_and (code : Nat) (s : DState) (a b d0 : Nat)
    (hi : (code >>> 27) &&& 31 = 12)
    (ha : (code >>> 21) &&& 63 = a)
    (hb : (code >>> 15) &&& 63 = b)
    (hc : (code >>> 9) &&& 63 = b)
    (hd : code &&& 0x1FF = d0)
    (ha61 : a < 61) (hb61 : b < 61) :
    doRegisterInstruction code s
    = { s with cmd := { s.cmd with
          itype := ARC_mov
          auxpref := d0
          Op1 := { s.cmd.Op1 with type := o_reg, reg := a, dtyp := dt_dword }
          Op2 := { s.cmd.Op2 with type := o_reg, reg := b, dtyp := dt_dword } } } := by
  unfold doRegisterInstruction
  simp only [hi, ha, hb, hc, hd]
  simp [ARC_flag, ARC_and, ARC_or, ARC_add, ARC_adc, ARC_xor, ARC_mov,
    doRegisterOperand, uint16, SHIMM_F, SHIMM, LIMM, aux_f,
    Int.toNat_natCast,
    (show a ≠ 61 by omega), (show a ≠ 62 by omega), (show a ≠ 63 by omega),
    (show b ≠ 61 by omega), (show b ≠ 62 by omega), (show b ≠ 63 by omega),
    (show ((a : Nat) : Int) ≠ -1 by omega), (show ((b : Nat) : Int) ≠ -1 by omega),
    (show ((a : Nat) : Int) ≠ 61 by omega), (show ((a : Nat) : Int) ≠ 62 by omega),
    (show ((a : Nat) : Int) ≠ 63 by omega),
    (show ((b : Nat) : Int) ≠ 61 by omega), (show ((b : Nat) : Int) ≠ 62 by omega),
    (show ((b : Nat) : Int) ≠ 63 by omega),
    (show ¬((61 : Int) ≤ ((b : Nat) : Int)) by omega),
    (show ¬((61 : Nat) ≤ b) by omega),
    (show a % 65536 = a by omega), (show b % 65536 = b by omega)]

/-- `doRegisterInstruction` on an ADD-class word whose source fields
are the same register: the inline add→lsl fold (two operands, third
slot untouched) -/
theorem doReg_add_reg (code : Nat) (s : DState) (a b d0 : Nat)
    (hi : (code >>> 27) &&& 31 = 8)
    (ha : (code >>> 21) &&& 63 = a)
    (hb : (code >>> 15) &&& 63 = b)
    (hc : (code >>> 9) &&& 63 = b)
    (hd : code &&& 0x1FF = d0)
    (ha61 : a < 61) (hb61 : b < 61) :
    doRegisterInstruction code s
    = { s with cmd := { s.cmd with
          itype := ARC_lsl
          auxpref := d0
          Op1 := { s.cmd.Op1 with type := o_reg, reg := a, dtyp := dt_dword }
          Op2 := { s.cmd.Op2 with type := o_reg, reg := b, dtyp := dt_dword } } } := by
  unfold doRegisterInstruction
  simp only [hi, ha, hb, hc, hd]
  simp [ARC_flag, ARC_and, ARC_or, ARC_add, ARC_adc, ARC_xor, ARC_mov, ARC_lsl,
    doRegisterOperand, uint16, SHIMM_F, SHIMM, LIMM, aux_f,
    Int.toNat_natCast,
    (show a ≠ 61 by omega), (show a ≠ 62 by omega), (show a ≠ 63 by omega),
    (show b ≠ 61 by omega), (show b ≠ 62 by omega), (show b ≠ 63 by omega),
    (show ((a : Nat) : Int) ≠ -1 by omega), (show ((b : Nat) : Int) ≠ -1 by omega),
    (show ((a : Nat) : Int) ≠ 61 by omega), (show ((a : Nat) : Int) ≠ 62 by omega),
    (show ((a : Nat) : Int) ≠ 63 by omega),
    (show ((b : Nat) : Int) ≠ 61 by omega), (show ((b : Nat) : Int) ≠ 62 by omega),
    (show ((b : Nat) : Int) ≠ 63 by omega),
    (show ¬((61 : Int) ≤ ((b : Nat) : Int)) by omega),
    (show ¬((61 : Nat) ≤ b) by omega),
    (show a % 65536 = a by omega), (show b % 65536 = b by omega)]

/-- `doRegisterInstruction` on an ADD-class word whose source fields
are both the short immediate code 61: mov with the immediate doubled -/
theorem doReg_add_s61 (code : Nat) (s : DState) (a d0 : Nat)
    (hi : (code >>> 27) &&& 31 = 8)
    (ha : (code >>> 21) &&& 63 = a)
    (hb : (code >>> 15) &&& 63 = 61)
    (hc : (code >>> 9) &&& 63 = 61)
    (hd : code &&& 0x1FF = d0)
    (ha61 : a < 61) :
    doRegisterInstruction code s
    = { s with cmd := { s.cmd with
          itype := ARC_mov
          auxpref := aux_f
          Op1 := { s.cmd.Op1 with type := o_reg, reg := a, dtyp := dt_dword }
          Op2 := { s.cmd.Op2 with
                   type := o_imm
                   value := (if 256 ≤ d0 then (d0 : Int) - 512 else (d0 : Int)) * 2
                   dtyp := dt_dword } } } := by
  unfold doRegisterInstruction
  simp only [hi, ha, hb, hc, hd]
  simp [ARC_flag, ARC_and, ARC_or, ARC_add, ARC_adc, ARC_xor, ARC_mov,
    doRegisterOperand, uint16, SHIMM_F, SHIMM, LIMM, aux_f,
    Int.toNat_natCast,
    (show a ≠ 61 by omega), (show a ≠ 62 by omega), (show a ≠ 63 by omega),
    (show ((a : Nat) : Int) ≠ -1 by omega),
    (show ((a : Nat) : Int) ≠ 61 by omega), (show ((a : Nat) : Int) ≠ 62 by omega),
    (show ((a : Nat) : Int) ≠ 63 by omega),
    (show a % 65536 = a by omega)]

/-- `doRegisterInstruction` on an ADD-class word whose source fields
are both the short immediate code 63: mov with the immediate doubled
(and `auxpref` zeroed by the SHIMM rule) -/
theorem doReg_add_s63 (code : Nat) (s : DState) (a d0 : Nat)
    (hi : (code >>> 27) &&& 31 = 8)
    (ha : (code >>> 21) &&& 63 = a)
    (hb : (code >>> 15) &&& 63 = 63)
    (hc : (code >>> 9) &&& 63 = 63)
    (hd : code &&& 0x1FF = d0)
    (ha61 : a < 61) :
    doRegisterInstruction code s
    = { s with cmd := { s.cmd with
          itype := ARC_mov
          auxpref := 0
          Op1 := { s.cmd.Op1 with type := o_reg, reg := a, dtyp := dt_dword }
          Op2 := { s.cmd.Op2 with
                   type := o_imm
                   value := (if 256 ≤ d0 then (d0 : Int) - 512 else (d0 : Int)) * 2
                   dtyp := dt_dword } } } := by
  unfold doRegisterInstruction
  simp only [hi, ha, hb, hc, hd]
  simp [ARC_flag, ARC_and, ARC_or, ARC_add, ARC_adc, ARC_xor, ARC_mov,
    doRegisterOperand, uint16, SHIMM_F, SHIMM, LIMM, aux_f,
    Int.toNat_natCast,
    (show a ≠ 61 by omega), (show a ≠ 62 by omega), (show a ≠ 63 by omega),
    (show ((a : Nat) : Int) ≠ -1 by omega),
    (show ((a : Nat) : Int) ≠ 61 by omega), (show ((a : Nat) : Int) ≠ 62 by omega),
    (show ((a : Nat) : Int) ≠ 63 by omega),
    (show a % 65536 = a by omega)]

/-- `doRegisterInstruction` on an ADD-class word whose source fields
are both the long-immediate code 62: fetch the long immediate, mov
with the fetched value doubled modulo 2^32 -/
theorem doReg_add_limm (code : Nat) (s : DState) (a d0 : Nat)
    (hi : (code >>> 27) &&& 31 = 8)
    (ha : (code >>> 21) &&& 63 = a)
    (hb : (code >>> 15) &&& 63 = 62)
    (hc : (code >>> 9) &&& 63 = 62)
    (hd : code &&& 0x1FF = d0)
    (ha61 : a < 61) :
    doRegisterInstruction code s
    = { (uaNextLong s).2 with cmd := { (uaNextLong s).2.cmd with
          itype := ARC_mov
          auxpref := d0
          Op1 := { (uaNextLong s).2.cmd.Op1 with type := o_reg, reg := a, dtyp := dt_dword }
          Op2 := { (uaNextLong s).2.cmd.Op2 with
                   type := o_imm
                   value := (((uaNextLong s).1 * 2 % 4294967296 : Nat) : Int)
                   offb := 4
                   dtyp := dt_dword } } } := by
  rcases hul : uaNextLong s with ⟨w, s2⟩
  unfold doRegisterInstruction
  simp only [hi, ha, hb, hc, hd, hul]
  simp [ARC_flag, ARC_and, ARC_or, ARC_add, ARC_adc, ARC_xor, ARC_mov,
    doRegisterOperand, uint16, SHIMM_F, SHIMM, LIMM, aux_f,
    Int.toNat_natCast,
    (show a ≠ 61 by omega), (show a ≠ 62 by omega), (show a ≠ 63 by omega),
    (show ((a : Nat) : Int) ≠ -1 by omega),
    (show ((a : Nat) : Int) ≠ 61 by omega), (show ((a : Nat) : Int) ≠ 62 by omega),
    (show ((a : Nat) : Int) ≠ 63 by omega),
    (show a % 65536 = a by omega)]

/-- C6 counterexample: the claim says an undefined single-operand
combination (major class 3, sub-opcode 0x3F, immediate other than
0/1/2) makes the legacy decoder return the zero-length sentinel, but on
word 0x18007E03 (class 3, c-field 0x3F, d = 3) `ana_old` has already
consumed the 32-bit word when it bails out of the operand switch: it
returns 4 (with the null opcode 0), not 0. -/
theorem C6_counterexample :
    (anaOld { cmd := initCmd 0, stream := fun i => [0x7E03, 0x1800].getD i 0 }).1 = 4
    ∧ (anaOld { cmd := initCmd 0, stream := fun i => [0x7E03, 0x1800].getD i 0 }).2.cmd.itype
      = ARC_null
    ∧ (4 : Nat) ≠ 0 := by
  refine ⟨by decide, by decide, by decide⟩

/-- C6: a legacy word of major class 3 whose sub-opcode field `c` is
0x3F and whose immediate field is none of 0 (brk), 1 (sleep), 2 (swi)
hits the early `return` in the operand switch of
`doRegisterInstruction`: the word has already been consumed, so
`ana_old` returns length 4 while `cmd.itype` stays at the null
opcode 0 (the claim's "returns 0" is wrong about the length). -/
theorem C6_undefined_single_op (f : Nat → Nat) (d0 : Nat)
    (hi : ((f 0 % 65536 ||| (f 1 % 65536) <<< 16) >>> 27) &&& 31 = 3)
    (hc : ((f 0 % 65536 ||| (f 1 % 65536) <<< 16) >>> 9) &&& 63 = 0x3F)
    (hd : (f 0 % 65536 ||| (f 1 % 65536) <<< 16) &&& 0x1FF = d0)
    (hd0 : d0 ≠ 0) (hd1 : d0 ≠ 1) (hd2 : d0 ≠ 2) :
    (anaOld { cmd := initCmd 0, stream := f }).1 = 4
    ∧ (anaOld { cmd := initCmd 0, stream := f }).2.cmd.itype = ARC_null := by
  rw [anaOld_class3 f hi, doReg_c3f _ _ d0 hi hc hd hd0 hd1 hd2]
  exact ⟨rfl, rfl⟩

/-- C6 witness: the hypotheses of `C6_undefined_single_op` are
satisfied by the concrete word 0x18007E03 (d = 3). -/
theorem C6_undefined_single_op_witness :
    (anaOld { cmd := initCmd 0, stream := fun i => [0x7E03, 0x1800].getD i 0 }).1 = 4
    ∧ (anaOld { cmd := initCmd 0, stream := fun i => [0x7E03, 0x1800].getD i 0 }).2.cmd.itype
      = ARC_null :=
  C6_undefined_single_op (fun i => [0x7E03, 0x1800].getD i 0) 3
    (by decide) (by decide) (by decide) (by decide) (by decide) (by decide)

/-- C4: the and→mov fold with the duplicate source dropped happens
inline in `doRegisterInstruction` for every AND-class legacy word with
equal register (non-immediate) source fields, regardless of the
ARC_SIMPLIFY configuration flag: `env.arc_simplify` is unconstrained
here (the claim's "NOT canonicalized when disabled" direction is
false, see the counterexample). -/
theorem C4_and_fold_unconditional (env : Env) (f : Nat → Nat) (a b d0 : Nat)
    (hA4 : env.is_a4 = true)
    (hi : ((f 0 % 65536 ||| (f 1 % 65536) <<< 16) >>> 27) &&& 31 = 12)
    (ha : ((f 0 % 65536 ||| (f 1 % 65536) <<< 16) >>> 21) &&& 63 = a)
    (hb : ((f 0 % 65536 ||| (f 1 % 65536) <<< 16) >>> 15) &&& 63 = b)
    (hc : ((f 0 % 65536 ||| (f 1 % 65536) <<< 16) >>> 9) &&& 63 = b)
    (hd : (f 0 % 65536 ||| (f 1 % 65536) <<< 16) &&& 0x1FF = d0)
    (ha61 : a < 61) (hb61 : b < 61) :
    (ana env { cmd := initCmd 0, stream := f }).2.cmd.itype = ARC_mov
    ∧ (ana env { cmd := initCmd 0, stream := f }).2.cmd.Op1.type = o_reg
    ∧ (ana env { cmd := initCmd 0, stream := f }).2.cmd.Op1.reg = a
    ∧ (ana env { cmd := initCmd 0, stream := f }).2.cmd.Op2.type = o_reg
    ∧ (ana env { cmd := initCmd 0, stream := f }).2.cmd.Op2.reg = b
    ∧ (ana env { cmd := initCmd 0, stream := f }).2.cmd.Op3.type = o_void
    ∧ (ana env { cmd := initCmd 0, stream := f }).1 = 4 := by
  have hdec := anaOld_class12 f hi
  rw [doReg_and _ _ a b d0 hi ha hb hc hd ha61 hb61] at hdec
  have hfin := ana_eq_of_decode env _ _ _ hA4 hdec (by exact (by decide : (4 : Nat) ≠ 0)) (Or.inl rfl)
  rw [hfin]
  exact ⟨rfl, rfl, rfl, rfl, rfl, rfl, rfl⟩

/-- C4 counterexample: with the legacy processor selected and the
ARC_SIMPLIFY flag disabled, word 0x60210400 (and r1,r2,r2) still
decodes to the mov opcode: the fold is not controlled by the flag,
so the claim's "NOT canonicalized when disabled" direction fails. -/
theorem C4_counterexample :
    (ana { is_a4 := true, arc_simplify := false }
        { cmd := initCmd 0, stream := fun i => [0x0400, 0x6021].getD i 0 }).2.cmd.itype
      = ARC_mov
    ∧ ARC_mov ≠ ARC_and := ⟨by decide, by decide⟩

/-- C4 witness: `C4_and_fold_unconditional` instantiated at the word
0x60210400 (and r1,r2,r2). -/
theorem C4_and_fold_unconditional_witness :
    (ana { is_a4 := true } { cmd := initCmd 0, stream := fun i => [0x0400, 0x6021].getD i 0 }).2.cmd.itype = ARC_mov
    ∧ (ana { is_a4 := true } { cmd := initCmd 0, stream := fun i => [0x0400, 0x6021].getD i 0 }).2.cmd.Op1.type = o_reg
    ∧ (ana { is_a4 := true } { cmd := initCmd 0, stream := fun i => [0x0400, 0x6021].getD i 0 }).2.cmd.Op1.reg = 1
    ∧ (ana { is_a4 := true } { cmd := initCmd 0, stream := fun i => [0x0400, 0x6021].getD i 0 }).2.cmd.Op2.type = o_reg
    ∧ (ana { is_a4 := true } { cmd := initCmd 0, stream := fun i => [0x0400, 0x6021].getD i 0 }).2.cmd.Op2.reg = 2
    ∧ (ana { is_a4 := true } { cmd := initCmd 0, stream := fun i => [0x0400, 0x6021].getD i 0 }).2.cmd.Op3.type = o_void
    ∧ (ana { is_a4 := true } { cmd := initCmd 0, stream := fun i => [0x0400, 0x6021].getD i 0 }).1 = 4 :=
  C4_and_fold_unconditional { is_a4 := true } (fun i => [0x0400, 0x6021].getD i 0) 1 2 0
    rfl (by decide) (by decide) (by decide) (by decide) (by decide) (by decide) (by decide)

/-- C7: for a legacy ADD-class word with equal source fields the fold
gives a TWO-operand `lsl` (third operand void, not an explicit "1")
when the shared field is a register; the exception arm covers every
immediate code (61/63 short immediate, and also 62, the long
immediate, which the claim's "short immediate" wording misses),
folding to `mov` with the immediate doubled (the long immediate is
doubled modulo 2^32). -/
theorem C7_add_fold (env : Env) (f : Nat → Nat) (a b d0 : Nat)
    (hA4 : env.is_a4 = true)
    (hi : ((f 0 % 65536 ||| (f 1 % 65536) <<< 16) >>> 27) &&& 31 = 8)
    (ha : ((f 0 % 65536 ||| (f 1 % 65536) <<< 16) >>> 21) &&& 63 = a)
    (hb : ((f 0 % 65536 ||| (f 1 % 65536) <<< 16) >>> 15) &&& 63 = b)
    (hc : ((f 0 % 65536 ||| (f 1 % 65536) <<< 16) >>> 9) &&& 63 = b)
    (hd : (f 0 % 65536 ||| (f 1 % 65536) <<< 16) &&& 0x1FF = d0)
    (ha61 : a < 61) :
    (b < 61 →
      (ana env { cmd := initCmd 0, stream := f }).2.cmd.itype = ARC_lsl
      ∧ (ana env { cmd := initCmd 0, stream := f }).2.cmd.Op1.type = o_reg
      ∧ (ana env { cmd := initCmd 0, stream := f }).2.cmd.Op1.reg = a
      ∧ (ana env { cmd := initCmd 0, stream := f }).2.cmd.Op2.type = o_reg
      ∧ (ana env { cmd := initCmd 0, stream := f }).2.cmd.Op2.reg = b
      ∧ (ana env { cmd := initCmd 0, stream := f }).2.cmd.Op3.type = o_void
      ∧ (ana env { cmd := initCmd 0, stream := f }).1 = 4)
    ∧ (b = 61 ∨ b = 63 →
      (ana env { cmd := initCmd 0, stream := f }).2.cmd.itype = ARC_mov
      ∧ (ana env { cmd := initCmd 0, stream := f }).2.cmd.Op1.type = o_reg
      ∧ (ana env { cmd := initCmd 0, stream := f }).2.cmd.Op1.reg = a
      ∧ (ana env { cmd := initCmd 0, stream := f }).2.cmd.Op2.type = o_imm
      ∧ (ana env { cmd := initCmd 0, stream := f }).2.cmd.Op2.value
          = (if 256 ≤ d0 then (d0 : Int) - 512 else (d0 : Int)) * 2
      ∧ (ana env { cmd := initCmd 0, stream := f }).2.cmd.Op3.type = o_void
      ∧ (ana env { cmd := initCmd 0, stream := f }).1 = 4)
    ∧ (b = 62 →
      (ana env { cmd := initCmd 0, stream := f }).2.cmd.itype = ARC_mov
      ∧ (ana env { cmd := initCmd 0, stream := f }).2.cmd.Op1.type = o_reg
      ∧ (ana env { cmd := initCmd 0, stream := f }).2.cmd.Op1.reg = a
      ∧ (ana env { cmd := initCmd 0, stream := f }).2.cmd.Op2.type = o_imm
      ∧ (ana env { cmd := initCmd 0, stream := f }).2.cmd.Op2.value
          = (((f 2 % 65536 ||| (f 3 % 65536) <<< 16) * 2 % 4294967296 : Nat) : Int)
      ∧ (ana env { cmd := initCmd 0, stream := f }).2.cmd.Op3.type = o_void
      ∧ (ana env { cmd := initCmd 0, stream := f }).1 = 8) := by
  refine ⟨fun hblt => ?_, fun hbeq => ?_, fun hbeq => ?_⟩
  · have hdec := anaOld_class8 f hi
    rw [doReg_add_reg _ _ a b d0 hi ha hb hc hd ha61 hblt] at hdec
    have hfin := ana_eq_of_decode env _ _ _ hA4 hdec (by exact (by decide : (4 : Nat) ≠ 0)) (Or.inr rfl)
    rw [hfin]
    exact ⟨rfl, rfl, rfl, rfl, rfl, rfl, rfl⟩
  · rcases hbeq with h61 | h63
    · subst h61
      have hdec := anaOld_class8 f hi
      rw [doReg_add_s61 _ _ a d0 hi ha hb hc hd ha61] at hdec
      have hfin := ana_eq_of_decode env _ _ _ hA4 hdec (by exact (by decide : (4 : Nat) ≠ 0)) (Or.inl rfl)
      rw [hfin]
      exact ⟨rfl, rfl, rfl, rfl, rfl, rfl, rfl⟩
    · subst h63
      have hdec := anaOld_class8 f hi
      rw [doReg_add_s63 _ _ a d0 hi ha hb hc hd ha61] at hdec
      have hfin := ana_eq_of_decode env _ _ _ hA4 hdec (by exact (by decide : (4 : Nat) ≠ 0)) (Or.inl rfl)
      rw [hfin]
      exact ⟨rfl, rfl, rfl, rfl, rfl, rfl, rfl⟩
  · subst hbeq
    have hdec := anaOld_class8 f hi
    rw [doReg_add_limm _ _ a d0 hi ha hb hc hd ha61] at hdec
    have hfin := ana_eq_of_decode env _ _ _ hA4 hdec (by exact (by decide : (8 : Nat) ≠ 0)) (Or.inl rfl)
    rw [hfin]
    exact ⟨rfl, rfl, rfl, rfl, rfl, rfl, rfl⟩

/-- C7 counterexample: word 0x40210400 (add r1,r2,r2) folds to `lsl`
with only TWO operands — the third operand slot stays void instead of
holding the explicit immediate 1 the claim's "lsl rD,rS,1" requires. -/
theorem C7_counterexample :
    (ana { is_a4 := true }
        { cmd := initCmd 0, stream := fun i => [0x0400, 0x4021].getD i 0 }).2.cmd.itype
      = ARC_lsl
    ∧ (ana { is_a4 := true }
        { cmd := initCmd 0, stream := fun i => [0x0400, 0x4021].getD i 0 }).2.cmd.Op3.type
      = o_void
    ∧ o_void ≠ o_imm := ⟨by decide, by decide, by decide⟩

/-- C7 witness: `C7_add_fold` instantiated at the word 0x40210400
(add r1,r2,r2), register arm. -/
theorem C7_add_fold_witness :
    (ana { is_a4 := true }
        { cmd := initCmd 0, stream := fun i => [0x0400, 0x4021].getD i 0 }).2.cmd.itype
      = ARC_lsl
    ∧ (ana { is_a4 := true }
        { cmd := initCmd 0, stream := fun i => [0x0400, 0x4021].getD i 0 }).2.cmd.Op3.type
      = o_void :=
  let h := (C7_add_fold { is_a4 := true } (fun i => [0x0400, 0x4021].getD i 0) 1 2 0
    rfl (by decide) (by decide) (by decide) (by decide) (by decide) (by decide)).1 (by decide)
  ⟨h.1, h.2.2.2.2.2.1⟩

/-- Modelled from the spec: the two's-complement ("sign-extended")
reading of a `w`-bit displacement field. -/
def toSigned (v w : Nat) : Int :=
  if v &&& (1 <<< (w - 1)) ≠ 0 then (v : Int) - ((1 <<< w : Nat) : Int) else (v : Int)

theorem xor_eq_or_of_and_eq_zero (x y : Nat) (h : x &&& y = 0) : x ^^^ y = x ||| y := by
  apply Nat.eq_of_testBit_eq
  intro i
  have hb : (x &&& y).testBit i = false := by rw [h]; exact Nat.zero_testBit i
  rw [Nat.testBit_and] at hb
  rw [Nat.testBit_xor, Nat.testBit_or]
  cases hx : x.testBit i <;> cases hy : y.testBit i <;> simp_all

theorem and_two_pow_eq_zero_of_lt (r k : Nat) (h : r < 2 ^ k) : r &&& (2 ^ k) = 0 := by
  apply Nat.eq_of_testBit_eq
  intro i
  rw [Nat.testBit_and, Nat.zero_testBit]
  rcases eq_or_ne i k with rfl | hik
  · rw [Nat.testBit_lt_two_pow h]
    simp
  · rw [Nat.testBit_two_pow_of_ne (Ne.symm hik)]
    simp

theorem or_two_pow_of_lt (r k : Nat) (h : r < 2 ^ k) : r ||| 2 ^ k = 2 ^ k + r := by
  have h1 := Nat.mul_add_lt_is_or h 1
  rw [Nat.mul_one] at h1
  rw [Nat.lor_comm, ← h1]

theorem xor_two_pow_of_lt (r k : Nat) (h : r < 2 ^ k) : r ^^^ 2 ^ k = 2 ^ k + r := by
  rw [xor_eq_or_of_and_eq_zero r (2 ^ k) (and_two_pow_eq_zero_of_lt r k h)]
  exact or_two_pow_of_lt r k h

theorem add_xor_two_pow (r k : Nat) (h : r < 2 ^ k) : (2 ^ k + r) ^^^ 2 ^ k = r := by
  rw [← xor_two_pow_of_lt r k h, Nat.xor_assoc, Nat.xor_self, Nat.xor_zero]

theorem and_two_pow_ne_zero_iff (v k : Nat) : v &&& 2 ^ k ≠ 0 ↔ v.testBit k = true := by
  constructor
  · intro h
    by_contra htb
    apply h
    apply Nat.eq_of_testBit_eq
    intro i
    rw [Nat.testBit_and, Nat.zero_testBit]
    rcases eq_or_ne i k with rfl | hik
    · simp only [Bool.not_eq_true] at htb
      rw [htb]
      rfl
    · rw [Nat.testBit_two_pow_of_ne (Ne.symm hik)]
      simp
  · intro h hand
    have h2 : (v &&& 2 ^ k).testBit k = true := by
      rw [Nat.testBit_and, h, Nat.testBit_two_pow_self]
      rfl
    rw [hand] at h2
    rw [Nat.zero_testBit] at h2
    exact Bool.false_ne_true h2

theorem testBit_of_interval (x k : Nat) (h1 : 2 ^ k ≤ x) (h2 : x < 2 ^ (k + 1)) :
    x.testBit k = true := by
  rw [Nat.testBit_to_div_mod]
  have hq : x / 2 ^ k = 1 := by
    have hlt : x / 2 ^ k < 2 := Nat.div_lt_of_lt_mul (by rw [pow_succ] at h2; omega)
    have hge : 1 ≤ x / 2 ^ k := (Nat.one_le_div_iff (by positivity)).2 h1
    omega
  simp [hq]

theorem BITS_lt (val h l : Nat) : BITS val h l < 2 ^ (h - l + 1) := by
  unfold BITS
  rw [Nat.one_shiftLeft, Nat.and_pow_two_sub_one_eq_mod]
  exact Nat.mod_lt _ (by positivity)

theorem SIGNEXT_eq_toSigned (v w : Nat) (hw : 1 ≤ w) (hv : v < 2 ^ w) :
    SIGNEXT v w = toSigned v w := by
  unfold SIGNEXT toSigned
  simp only [Nat.one_shiftLeft]
  rw [Nat.and_pow_two_sub_one_eq_mod, Nat.mod_eq_of_lt hv]
  have hpow : 2 ^ w = 2 ^ (w - 1) + 2 ^ (w - 1) := by
    have hw1 : w - 1 + 1 = w := by omega
    have hps := pow_succ 2 (w - 1)
    rw [hw1] at hps
    omega
  by_cases hb : v &&& 2 ^ (w - 1) ≠ 0
  · rw [if_pos hb]
    have htb : v.testBit (w - 1) = true := (and_two_pow_ne_zero_iff v (w - 1)).1 hb
    have hge : 2 ^ (w - 1) ≤ v := Nat.testBit_implies_ge htb
    have hrep : v = 2 ^ (w - 1) + (v - 2 ^ (w - 1)) := by omega
    have hrlt : v - 2 ^ (w - 1) < 2 ^ (w - 1) := by omega
    rw [hrep, add_xor_two_pow _ _ hrlt]
    omega
  · rw [if_neg hb]
    rw [not_not] at hb
    have htb : v.testBit (w - 1) = false := by
      by_contra htb'
      rw [Bool.not_eq_false] at htb'
      exact ((and_two_pow_ne_zero_iff v (w - 1)).2 htb') hb
    have hlt : v < 2 ^ (w - 1) := by
      have hq2 : v / 2 ^ (w - 1) < 2 := by
        rw [Nat.div_lt_iff_lt_mul (show (0 : Nat) < 2 ^ (w - 1) by positivity)]
        omega
      have hm : v / 2 ^ (w - 1) % 2 ≠ 1 := by
        rw [Nat.testBit_to_div_mod] at htb
        simpa using htb
      have hq0 : v / 2 ^ (w - 1) = 0 := by
        have hcases : v / 2 ^ (w - 1) = 0 ∨ v / 2 ^ (w - 1) = 1 := by
          set q := v / 2 ^ (w - 1) with hq
          clear_value q
          omega
        rcases hcases with h0 | h1
        · exact h0
        · rw [h1] at hm
          norm_num at hm
      by_contra hge'
      push_neg at hge'
      have h1d : 1 ≤ v / 2 ^ (w - 1) := (Nat.one_le_div_iff (by positivity)).2 hge'
      omega
    rw [xor_two_pow_of_lt v (w - 1) hlt]
    omega

theorem SBITS_toSigned_6 (c : Nat) : SBITS c 5 0 = toSigned (BITS c 5 0) 6 := by
  have hb := BITS_lt c 5 0
  norm_num at hb
  exact SIGNEXT_eq_toSigned _ 6 (by norm_num) (by norm_num; exact hb)

theorem SBITS_toSigned_7 (c : Nat) : SBITS c 6 0 = toSigned (BITS c 6 0) 7 := by
  have hb := BITS_lt c 6 0
  norm_num at hb
  exact SIGNEXT_eq_toSigned _ 7 (by norm_num) (by norm_num; exact hb)

theorem SBITS_toSigned_9 (c : Nat) : SBITS c 8 0 = toSigned (BITS c 8 0) 9 := by
  have hb := BITS_lt c 8 0
  norm_num at hb
  exact SIGNEXT_eq_toSigned _ 9 (by norm_num) (by norm_num; exact hb)

theorem SBITS_toSigned_11 (c : Nat) : SBITS c 10 0 = toSigned (BITS c 10 0) 11 := by
  have hb := BITS_lt c 10 0
  norm_num at hb
  exact SIGNEXT_eq_toSigned _ 11 (by norm_num) (by norm_num; exact hb)

/-- the S9 sign bit sits apart (code bit 15) from the 7 magnitude bits
(code bits 23..17): recombined, the value is the two's-complement
reading of the 8-bit field -/
theorem S9_signed (c : Nat) :
    toSigned ((BITS c 15 15 <<< 7) ||| BITS c 23 17) 8
    = if BITS c 15 15 ≠ 0 then (BITS c 23 17 : Int) - ((1 <<< 7 : Nat) : Int)
      else (BITS c 23 17 : Int) := by
  have h15 : BITS c 15 15 < 2 := by
    have := BITS_lt c 15 15
    norm_num at this
    exact this
  have h7 : BITS c 23 17 < 2 ^ 7 := by
    have := BITS_lt c 23 17
    norm_num at this ⊢
    exact this
  rcases (by omega : BITS c 15 15 = 0 ∨ BITS c 15 15 = 1) with h | h
  · rw [h]
    have hz : (0 <<< 7) ||| BITS c 23 17 = BITS c 23 17 := by
      rw [Nat.zero_shiftLeft, Nat.zero_or]
    rw [hz]
    have hand : BITS c 23 17 &&& 128 = 0 := by
      have h0 := and_two_pow_eq_zero_of_lt _ _ h7
      norm_num at h0
      exact h0
    rw [toSigned, if_neg (by norm_num [Nat.one_shiftLeft, hand]), if_neg (by norm_num)]
  · rw [h]
    have hor : (1 <<< 7) ||| BITS c 23 17 = 2 ^ 7 + BITS c 23 17 := by
      rw [Nat.one_shiftLeft, Nat.lor_comm]
      exact or_two_pow_of_lt _ _ h7
    rw [hor]
    have htb : (2 ^ 7 + BITS c 23 17).testBit 7 = true :=
      testBit_of_interval _ 7 (by omega) (by norm_num; omega)
    have hand : (2 ^ 7 + BITS c 23 17) &&& (1 <<< 7) ≠ 0 := by
      rw [Nat.one_shiftLeft]
      exact (and_two_pow_ne_zero_iff _ 7).2 htb
    rw [toSigned, if_pos (by norm_num at hand ⊢; exact hand), if_pos (by norm_num)]
    push_cast
    omega

/-- C9: every compact branch-displacement operand tag produces an
`o_near` operand whose target is the current instruction address with
its two low bits cleared plus the two's-complement displacement times
the tag's scale: 2 for the 16-bit-aligned tags (S25/S21/S9/S7/S8/S10),
4 for the 32-bit-aligned S13, with the branch-and-link tags S25L/S21L
first forcing the low bit of the signed displacement to zero. -/
theorem C9_branch_target_formula (env : Env) (code : Nat) (x : OpT) (s : DState) :
    ((decode_operand env code x S25 s).1.type = o_near
      ∧ (decode_operand env code x S25 s).1.addr = ((s.cmd.ea - s.cmd.ea % 4 : Nat) : Int) + toSigned (((BITS code 15 6 <<< 10) ||| BITS code 26 17) ||| (BITS code 3 0 <<< 20)) 24 * 2)
    ∧ ((decode_operand env code x S21 s).1.type = o_near
      ∧ (decode_operand env code x S21 s).1.addr = ((s.cmd.ea - s.cmd.ea % 4 : Nat) : Int) + toSigned ((BITS code 15 6 <<< 10) ||| BITS code 26 17) 20 * 2)
    ∧ ((decode_operand env code x S25L s).1.type = o_near
      ∧ (decode_operand env code x S25L s).1.addr = ((s.cmd.ea - s.cmd.ea % 4 : Nat) : Int) + (toSigned (((BITS code 15 6 <<< 10) ||| BITS code 26 17) ||| (BITS code 3 0 <<< 20)) 24 - toSigned (((BITS code 15 6 <<< 10) ||| BITS code 26 17) ||| (BITS code 3 0 <<< 20)) 24 % 2) * 2)
    ∧ ((decode_operand env code x S21L s).1.type = o_near
      ∧ (decode_operand env code x S21L s).1.addr = ((s.cmd.ea - s.cmd.ea % 4 : Nat) : Int) + (toSigned ((BITS code 15 6 <<< 10) ||| BITS code 26 17) 20 - toSigned ((BITS code 15 6 <<< 10) ||| BITS code 26 17) 20 % 2) * 2)
    ∧ ((decode_operand env code x S9 s).1.type = o_near
      ∧ (decode_operand env code x S9 s).1.addr = ((s.cmd.ea - s.cmd.ea % 4 : Nat) : Int) + toSigned ((BITS code 15 15 <<< 7) ||| BITS code 23 17) 8 * 2)
    ∧ ((decode_operand env code x S7 s).1.type = o_near
      ∧ (decode_operand env code x S7 s).1.addr = ((s.cmd.ea - s.cmd.ea % 4 : Nat) : Int) + toSigned (BITS code 5 0) 6 * 2)
    ∧ ((decode_operand env code x S8 s).1.type = o_near
      ∧ (decode_operand env code x S8 s).1.addr = ((s.cmd.ea - s.cmd.ea % 4 : Nat) : Int) + toSigned (BITS code 6 0) 7 * 2)
    ∧ ((decode_operand env code x S10 s).1.type = o_near
      ∧ (decode_operand env code x S10 s).1.addr = ((s.cmd.ea - s.cmd.ea % 4 : Nat) : Int) + toSigned (BITS code 8 0) 9 * 2)
    ∧ ((decode_operand env code x S13 s).1.type = o_near
      ∧ (decode_operand env code x S13 s).1.addr = ((s.cmd.ea - s.cmd.ea % 4 : Nat) : Int) + toSigned (BITS code 10 0) 11 * 4) := by
  refine ⟨⟨rfl, rfl⟩, ⟨rfl, rfl⟩, ⟨rfl, rfl⟩, ⟨rfl, rfl⟩,
    ⟨rfl, ?_⟩, ⟨rfl, ?_⟩, ⟨rfl, ?_⟩, ⟨rfl, ?_⟩, ⟨rfl, ?_⟩⟩
  · rw [S9_signed code]; rfl
  · rw [← SBITS_toSigned_6 code]; rfl
  · rw [← SBITS_toSigned_7 code]; rfl
  · rw [← SBITS_toSigned_9 code]; rfl
  · rw [← SBITS_toSigned_11 code]; rfl
